import Mathlib

/-!
# OneButton gesture recognizer: a shallow embedding

The finite state machine of `OneButton.cpp` / `OneButton.h` (the ShaggyDog18
variant of the OneButton library, built without `PARAM_FUNC`) is embedded as
pure functions over a record of the object's fields.

* `unsigned long` values are naturals reduced modulo `2^32`, `uint16_t`
  values modulo `2^16`, `uint8_t` values modulo `2^8`.
* A callback slot is a `Bool`: `true` when a function is attached, `false`
  when the slot is `NULL`.  Calling an attached callback is recorded as an
  `Event`; `tick`, `reset` and the threshold setters return the new object
  together with the events they fired.
* `millis()` is an argument of `tick`.
-/

/-- States of the finite state machine (`enum stateMachine_t`). -/
inductive OneButton.stateMachine_t where
  | WAIT_FOR_INITIAL_PRESS
  | DEBOUNCE_OR_LONG_PRESS
  | DETECT_CLICK
  | COUNT_CLICKS
  | LONG_PRESS
  deriving DecidableEq, Repr

/-- One constructor per callback slot of the class; an event is a call of
the function attached to that slot. -/
inductive OneButton.Event where
  | click
  | doubleClick
  | multiClick
  | pressStart
  | longPressStart
  | longPressStop
  | duringLongPress
  deriving DecidableEq, Repr

/-- The private data members of `class OneButton`. -/
structure OneButton where
  _clickFunc : Bool
  _doubleClickFunc : Bool
  _multiClickFunc : Bool
  _pressStartFunc : Bool
  _longPressStartFunc : Bool
  _longPressStopFunc : Bool
  _duringLongPressFunc : Bool
  _pin : Int
  _debounceTicks : Nat
  _clickTicks : Nat
  _pressTicks : Nat
  _startTime : Nat
  _stopTime : Nat
  _buttonPressed : Bool
  _nClicks : Nat
  _state : OneButton.stateMachine_t
  deriving DecidableEq, Repr

namespace OneButton

open stateMachine_t

/-- Width of `unsigned long` on the target: values live modulo `2^32`. -/
def U32 : Nat := 4294967296

/-- Width of `uint16_t`: values live modulo `2^16`. -/
def U16 : Nat := 65536

/-- Width of `uint8_t`: values live modulo `2^8`. -/
def U8 : Nat := 256

/-- Subtraction of two `unsigned long` values, `a - b` in C. -/
def subU32 (a b : Nat) : Nat := (a % U32 + (U32 - b % U32)) % U32

/-- The expression `(uint16_t)(a - b)` for `unsigned long` operands. -/
def elapsed16 (a b : Nat) : Nat := subU32 a b % U16

/-- The statement `if (f) f();` for a callback slot `f`. -/
def call (f : Bool) (e : Event) : List Event := if f then [e] else []

/-- The in-class member initialisers followed by the body of
`OneButton::OneButton()`.  `_startTime` and `_stopTime` have no initialiser;
their indeterminate values are the arguments `startTime0` and `stopTime0`. -/
def mk0 (startTime0 stopTime0 : Nat) : OneButton :=
  { _clickFunc := false
    _doubleClickFunc := false
    _multiClickFunc := false
    _pressStartFunc := false
    _longPressStartFunc := false
    _longPressStopFunc := false
    _duringLongPressFunc := false
    _pin := -1
    _debounceTicks := 50
    _clickTicks := 400
    _pressTicks := 800
    _startTime := startTime0 % U32
    _stopTime := stopTime0 % U32
    _buttonPressed := false
    _nClicks := 0
    _state := WAIT_FOR_INITIAL_PRESS }

/-- The constructor `OneButton(pin, activeLow, pullupActive)`; the call of
`pinMode` acts on the hardware only. -/
def mkPin (startTime0 stopTime0 : Nat) (pin : Int) (activeLow : Bool) : OneButton :=
  { mk0 startTime0 stopTime0 with _pin := pin, _buttonPressed := !activeLow }

/-- The inline setter `setDebounceTicks(const uint16_t ticks)`: one assignment
and no call of a callback, so the list of fired callbacks is empty. -/
def setDebounceTicks (b : OneButton) (ticks : Nat) : OneButton × List Event :=
  ({ b with _debounceTicks := ticks % U16 }, [])

/-- The inline setter `setClickTicks(const uint16_t ticks)`. -/
def setClickTicks (b : OneButton) (ticks : Nat) : OneButton × List Event :=
  ({ b with _clickTicks := ticks % U16 }, [])

/-- The inline setter `setPressTicks(const uint16_t ticks)`. -/
def setPressTicks (b : OneButton) (ticks : Nat) : OneButton × List Event :=
  ({ b with _pressTicks := ticks % U16 }, [])

def attachClick (b : OneButton) : OneButton := { b with _clickFunc := true }

def attachDoubleClick (b : OneButton) : OneButton := { b with _doubleClickFunc := true }

def attachMultiClick (b : OneButton) : OneButton := { b with _multiClickFunc := true }

def attachPressStart (b : OneButton) : OneButton := { b with _pressStartFunc := true }

def attachLongPressStart (b : OneButton) : OneButton := { b with _longPressStartFunc := true }

def attachLongPressStop (b : OneButton) : OneButton := { b with _longPressStopFunc := true }

def attachDuringLongPress (b : OneButton) : OneButton := { b with _duringLongPressFunc := true }

def isIdle (b : OneButton) : Bool := b._state == WAIT_FOR_INITIAL_PRESS

def isLongPressed (b : OneButton) : Bool := b._state == LONG_PRESS

def getNumberClicks (b : OneButton) : Nat := b._nClicks

/-- Conversion of an `unsigned long` value to the 32-bit `int` of the target
(two's complement). -/
def toInt32 (v : Nat) : Int :=
  if v % U32 < 2147483648 then ((v % U32 : Nat) : Int) else ((v % U32 : Nat) : Int) - 4294967296

/-- The inline getter `int getPressedTicks() { return _stopTime - _startTime; }`:
the `unsigned long` difference returned as an `int`. -/
def getPressedTicks (b : OneButton) : Int := toInt32 (subU32 b._stopTime b._startTime)

/-- The body of `OneButton::reset`: three assignments and no call of a
callback, so the list of fired callbacks is empty. -/
def reset (b : OneButton) : OneButton × List Event :=
  ({ b with _state := WAIT_FOR_INITIAL_PRESS, _startTime := 0, _stopTime := 0 }, [])

/-- The inner `switch(_nClicks)` of the `DETECT_CLICK` case. -/
def dispatchClicks (b : OneButton) (n : Nat) : List Event :=
  match n with
  | 1 => call b._clickFunc Event.click
  | 2 => call b._doubleClickFunc Event.doubleClick
  | _ => call b._multiClickFunc Event.multiClick

/-- The body of `OneButton::tick(const bool buttonIsPressed)`, with the value
returned by `millis()` as the argument `millis`.  The result is the object
after the call and the callbacks invoked by the call, in order. -/
def tick (b : OneButton) (buttonIsPressed : Bool) (millis : Nat) : OneButton × List Event :=
  let now := millis % U32
  let waitTime := elapsed16 now b._startTime
  match b._state with
  | WAIT_FOR_INITIAL_PRESS =>
    if buttonIsPressed then
      ({ b with _state := DEBOUNCE_OR_LONG_PRESS, _startTime := now, _nClicks := 0 }, [])
    else (b, [])
  | DEBOUNCE_OR_LONG_PRESS =>
    if buttonIsPressed then
      if waitTime > b._pressTicks then
        ({ b with _nClicks := 1, _state := LONG_PRESS, _stopTime := now },
          call b._longPressStartFunc Event.longPressStart)
      else (b, [])
    else
      if waitTime < b._debounceTicks then
        ({ b with _state := WAIT_FOR_INITIAL_PRESS }, [])
      else
        ({ b with _state := DETECT_CLICK, _stopTime := now },
          call b._pressStartFunc Event.pressStart)
  | DETECT_CLICK =>
    if waitTime > b._clickTicks then
      let n := (b._nClicks + 1) % U8
      ({ b with _nClicks := n, _state := WAIT_FOR_INITIAL_PRESS }, dispatchClicks b n)
    else
      if buttonIsPressed && decide (elapsed16 now b._stopTime > b._debounceTicks) then
        ({ b with _state := COUNT_CLICKS, _startTime := now }, [])
      else (b, [])
  | COUNT_CLICKS =>
    if (!buttonIsPressed) && decide (waitTime > b._debounceTicks) then
      ({ b with _nClicks := (b._nClicks + 1) % U8, _state := DETECT_CLICK, _stopTime := now }, [])
    else (b, [])
  | LONG_PRESS =>
    if buttonIsPressed then
      (b, call b._duringLongPressFunc Event.duringLongPress)
    else
      ({ b with _state := WAIT_FOR_INITIAL_PRESS, _stopTime := now },
        call b._longPressStopFunc Event.longPressStop)

/-- The body of `OneButton::tick(void)`: `level` is the value returned by
`digitalRead(_pin)`. -/
def tickPin (b : OneButton) (level : Bool) (millis : Nat) : OneButton × List Event :=
  if b._pin ≥ 0 then tick b (level == b._buttonPressed) millis else (b, [])

/-- A poll: the sampled level and the clock value at the call of `tick`. -/
abbrev Poll := Bool × Nat

/-- Calls `tick` once per poll, in order.  The result is the final object and,
for every poll, the list of callbacks fired by that poll. -/
def run (b : OneButton) : List Poll → OneButton × List (List Event)
  | [] => (b, [])
  | p :: ps =>
    let r := tick b p.1 p.2
    let rest := run r.1 ps
    (rest.1, r.2 :: rest.2)

/-- The object after each poll of a run (one entry per poll). -/
def states (b : OneButton) : List Poll → List OneButton
  | [] => []
  | p :: ps => (tick b p.1 p.2).1 :: states (tick b p.1 p.2).1 ps

/-- A freshly constructed recognizer on which all seven callbacks have been
attached. -/
def fresh (startTime0 stopTime0 : Nat) : OneButton :=
  attachDuringLongPress (attachLongPressStop (attachLongPressStart (attachPressStart
    (attachMultiClick (attachDoubleClick (attachClick (mk0 startTime0 stopTime0)))))))

/-! ## Vocabulary of the properties -/

/-- The object `b` with the four fields written by `tick` replaced: the FSM
state, `_startTime`, `_stopTime` and `_nClicks`.  Thresholds and callback
slots are those of `b`. -/
def setFsm (b : OneButton) (s : stateMachine_t) (start stop n : Nat) : OneButton :=
  { b with _state := s, _startTime := start, _stopTime := stop, _nClicks := n }

/-- All callbacks fired by a run, in order. -/
def fired (b : OneButton) (l : List Poll) : List Event := (run b l).2.flatten

/-- Timestamps of a schedule never decrease. -/
def NonDecreasing (l : List Poll) : Prop := l.Pairwise (fun p q => p.2 ≤ q.2)

instance (l : List Poll) : Decidable (NonDecreasing l) := by
  unfold NonDecreasing; infer_instance

/-- The schedule contains a poll at time `t`. -/
def HasPollAt (l : List Poll) (t : Nat) : Prop := ∃ p ∈ l, p.2 = t

instance (l : List Poll) (t : Nat) : Decidable (HasPollAt l t) := by
  unfold HasPollAt; infer_instance

/-- The recognizer after the constructor, the seven `attach` calls and the
three threshold setters. -/
def configured (startTime0 stopTime0 debounce click press : Nat) : OneButton :=
  (setPressTicks (setClickTicks (setDebounceTicks (fresh startTime0 stopTime0) debounce).1
    click).1 press).1

/-- The three callbacks that report a finished click sequence. -/
def isClickEvent : Event → Bool
  | Event.click => true
  | Event.doubleClick => true
  | Event.multiClick => true
  | _ => false

/-- The polls of a bouncing contact: for each pair `(s, r)` a pressed poll at
`s` followed by a released poll at `r`. -/
def bouncePolls (pairs : List (Nat × Nat)) : List Poll :=
  pairs.flatMap (fun q => [(true, q.1), (false, q.2)])

/-- Press-start calls and click dispatches alternate, other events being
skipped.  `pending` tells whether a press-start has been seen whose click
dispatch is still to come: a press-start is allowed only when none is pending,
a click dispatch only when one is. -/
def alternates : Bool → List Event → Bool
  | _, [] => true
  | pending, e :: es =>
    if e = Event.pressStart then !pending && alternates true es
    else if isClickEvent e then pending && alternates false es
    else alternates pending es

/-- The FSM is inside a click sequence: a release has been accepted and the
sequence has not been dispatched yet. -/
def inSequence (b : OneButton) : Bool :=
  match b._state with
  | DETECT_CLICK => true
  | COUNT_CLICKS => true
  | _ => false

/-- The three long-press callbacks. -/
def isLongPressEvent : Event → Bool
  | Event.longPressStart => true
  | Event.duringLongPress => true
  | Event.longPressStop => true
  | _ => false

/-- Long-press events are properly paired, other events being skipped.
`inside` tells whether a long-press-start has been seen without its
long-press-stop: a start is allowed only outside, a stop and a
during-long-press only inside. -/
def longPressPaired : Bool → List Event → Bool
  | _, [] => true
  | inside, e :: es =>
    if e = Event.longPressStart then !inside && longPressPaired true es
    else if e = Event.longPressStop then inside && longPressPaired false es
    else if e = Event.duringLongPress then inside && longPressPaired true es
    else longPressPaired inside es

/-- The last long-press event of a list of events, if there is one. -/
def lastLongPressEvent (evs : List Event) : Option Event :=
  (evs.filter isLongPressEvent).getLast?

/-- The last long-press event so far is a long-press-start or a
during-long-press. -/
def LongPressOpen (evs : List Event) : Prop :=
  lastLongPressEvent evs = some Event.longPressStart
    ∨ lastLongPressEvent evs = some Event.duringLongPress

/-- The poll `p` is an accepted release: it moves the FSM into DETECT_CLICK,
from DEBOUNCE_OR_LONG_PRESS (first click) or from COUNT_CLICKS (repeated
click). -/
def entersDetect (b : OneButton) (p : Poll) : Bool :=
  match b._state, (tick b p.1 p.2).1._state with
  | DEBOUNCE_OR_LONG_PRESS, DETECT_CLICK => true
  | COUNT_CLICKS, DETECT_CLICK => true
  | _, _ => false

/-- Number of accepted releases, that is of completed press/release cycles,
in a run. -/
def acceptedReleases (b : OneButton) : List Poll → Nat
  | [] => 0
  | p :: ps => (if entersDetect b p then 1 else 0) + acceptedReleases (tick b p.1 p.2).1 ps

/-- The click callback expected for a sequence of `k` clicks: single-click for
one click, double-click for two, multi-click for three or more. -/
def expectedClick (k : Nat) : Event :=
  if k = 1 then Event.click else if k = 2 then Event.doubleClick else Event.multiClick

/-- A schedule of `k` press/release cycles, one every 150 ms, each press held
for 60 ms. -/
def manyClicks (k : Nat) : List Poll :=
  (List.range k).flatMap (fun i => [(true, 150 * i), (false, 150 * i + 60)])

/-- Progress of a click sequence after `c` accepted releases: no release yet
and a zero count while the first press is debounced; afterwards the count is
one behind the number of accepted releases (modulo 256). -/
def SequenceInv (b : OneButton) (c : Nat) : Prop :=
  match b._state with
  | WAIT_FOR_INITIAL_PRESS => False
  | DEBOUNCE_OR_LONG_PRESS => c = 0 ∧ b._nClicks = 0
  | DETECT_CLICK => 1 ≤ c ∧ b._nClicks = (c - 1) % U8
  | COUNT_CLICKS => 1 ≤ c ∧ b._nClicks = (c - 1) % U8
  | LONG_PRESS => True

/-- A sample schedule of a single click: press at 0, release at 60, idle
until 500. -/
def singleClickSample : List Poll :=
  [(true, 0), (true, 30), (false, 60), (false, 60), (false, 400), (false, 450), (false, 500)]

/-- A sample schedule of a double click. -/
def doubleClickSample : List Poll :=
  [(true, 0), (true, 59), (false, 60), (false, 100), (true, 150), (true, 200), (false, 210),
    (false, 550), (false, 551), (false, 610)]

/-- A sample schedule of three clicks. -/
def multiClickSample : List Poll :=
  [(true, 0), (false, 60), (true, 150), (false, 210), (false, 299), (true, 300), (true, 359),
    (false, 360), (false, 700), (false, 760)]

/-- The value of the local variable `waitTime` of `tick` when `millis()`
returns `millis`: `(uint16_t)(now - _startTime)`. -/
def waitTime (b : OneButton) (millis : Nat) : Nat := elapsed16 (millis % U32) b._startTime

/-- The value of the expression `(uint16_t)(now - _stopTime)` of `tick` when
`millis()` returns `millis`. -/
def sinceStop (b : OneButton) (millis : Nat) : Nat := elapsed16 (millis % U32) b._stopTime

/-- The fields of the gesture in progress agree: FSM state, `_startTime`,
`_stopTime` and `_nClicks`. -/
def SameFsm (a b : OneButton) : Prop :=
  a._state = b._state ∧ a._startTime = b._startTime ∧ a._stopTime = b._stopTime
    ∧ a._nClicks = b._nClicks

/-- What an observer of a run sees of the object after a poll: the FSM state
and the click count. -/
def observed (b : OneButton) : stateMachine_t × Nat := (b._state, b._nClicks)

/-- The poll `p` registers a press: a pressed sample that takes the idle state
to DEBOUNCE_OR_LONG_PRESS or DETECT_CLICK to COUNT_CLICKS. -/
def registersPress (b : OneButton) (p : Poll) : Bool :=
  p.1 && match b._state, (tick b p.1 p.2).1._state with
    | WAIT_FOR_INITIAL_PRESS, DEBOUNCE_OR_LONG_PRESS => true
    | DETECT_CLICK, COUNT_CLICKS => true
    | _, _ => false

/-- The button is held: the FSM is in one of the three states entered by a
press and left by a release. -/
def holding (b : OneButton) : Bool :=
  match b._state with
  | DEBOUNCE_OR_LONG_PRESS => true
  | COUNT_CLICKS => true
  | LONG_PRESS => true
  | _ => false

/-- The poll `p` accepts a release: a released sample that takes
DEBOUNCE_OR_LONG_PRESS or COUNT_CLICKS to DETECT_CLICK, or LONG_PRESS to the
idle state. -/
def acceptsRelease (b : OneButton) (p : Poll) : Bool :=
  !p.1 && match b._state, (tick b p.1 p.2).1._state with
    | DEBOUNCE_OR_LONG_PRESS, DETECT_CLICK => true
    | COUNT_CLICKS, DETECT_CLICK => true
    | LONG_PRESS, WAIT_FOR_INITIAL_PRESS => true
    | _, _ => false

/-! ## Arithmetic of elapsed times -/

theorem elapsed16_eq_sub (t s : Nat) (hs : s ≤ t) (ht : t < U32) (hd : t - s < U16) :
    elapsed16 (t % U32) s = t - s := by
  simp only [elapsed16, subU32, U32, U16] at *
  omega

/-! ## One lemma per row of the transition table -/

theorem tick_idle_released (b : OneButton) (s p n t : Nat) :
    tick (setFsm b WAIT_FOR_INITIAL_PRESS s p n) false t
      = (setFsm b WAIT_FOR_INITIAL_PRESS s p n, []) := by
  simp [tick, setFsm]

theorem tick_idle_pressed (b : OneButton) (s p n t : Nat) :
    tick (setFsm b WAIT_FOR_INITIAL_PRESS s p n) true t
      = (setFsm b DEBOUNCE_OR_LONG_PRESS (t % U32) p 0, []) := by
  simp [tick, setFsm]

theorem tick_debounce_hold (b : OneButton) (s p n t : Nat)
    (h : elapsed16 (t % U32) s ≤ b._pressTicks) :
    tick (setFsm b DEBOUNCE_OR_LONG_PRESS s p n) true t
      = (setFsm b DEBOUNCE_OR_LONG_PRESS s p n, []) := by
  simp [tick, setFsm, h]

theorem tick_debounce_long (b : OneButton) (s p n t : Nat)
    (h : b._pressTicks < elapsed16 (t % U32) s) :
    tick (setFsm b DEBOUNCE_OR_LONG_PRESS s p n) true t
      = (setFsm b LONG_PRESS s (t % U32) 1,
          call b._longPressStartFunc Event.longPressStart) := by
  simp [tick, setFsm, h]

theorem tick_debounce_bounce (b : OneButton) (s p n t : Nat)
    (h : elapsed16 (t % U32) s < b._debounceTicks) :
    tick (setFsm b DEBOUNCE_OR_LONG_PRESS s p n) false t
      = (setFsm b WAIT_FOR_INITIAL_PRESS s p n, []) := by
  simp [tick, setFsm, h]

theorem tick_debounce_release (b : OneButton) (s p n t : Nat)
    (h : b._debounceTicks ≤ elapsed16 (t % U32) s) :
    tick (setFsm b DEBOUNCE_OR_LONG_PRESS s p n) false t
      = (setFsm b DETECT_CLICK s (t % U32) n, call b._pressStartFunc Event.pressStart) := by
  simp [tick, setFsm, Nat.not_lt.mpr h]

theorem tick_detect_close (b : OneButton) (s p n t : Nat) (lvl : Bool)
    (h : b._clickTicks < elapsed16 (t % U32) s) :
    tick (setFsm b DETECT_CLICK s p n) lvl t
      = (setFsm b WAIT_FOR_INITIAL_PRESS s p ((n + 1) % U8),
          dispatchClicks b ((n + 1) % U8)) := by
  simp [tick, setFsm, h, dispatchClicks]

theorem tick_detect_repress (b : OneButton) (s p n t : Nat)
    (h : elapsed16 (t % U32) s ≤ b._clickTicks)
    (h2 : b._debounceTicks < elapsed16 (t % U32) p) :
    tick (setFsm b DETECT_CLICK s p n) true t
      = (setFsm b COUNT_CLICKS (t % U32) p n, []) := by
  simp [tick, setFsm, h, h2]

theorem tick_detect_wait (b : OneButton) (s p n t : Nat)
    (h : elapsed16 (t % U32) s ≤ b._clickTicks) :
    tick (setFsm b DETECT_CLICK s p n) false t = (setFsm b DETECT_CLICK s p n, []) := by
  simp [tick, setFsm, h]

theorem tick_count_hold (b : OneButton) (s p n t : Nat) :
    tick (setFsm b COUNT_CLICKS s p n) true t = (setFsm b COUNT_CLICKS s p n, []) := by
  simp [tick, setFsm]

theorem tick_count_release (b : OneButton) (s p n t : Nat)
    (h : b._debounceTicks < elapsed16 (t % U32) s) :
    tick (setFsm b COUNT_CLICKS s p n) false t
      = (setFsm b DETECT_CLICK s (t % U32) ((n + 1) % U8), []) := by
  simp [tick, setFsm, h]

theorem tick_long_hold (b : OneButton) (s p n t : Nat) :
    tick (setFsm b LONG_PRESS s p n) true t
      = (setFsm b LONG_PRESS s p n, call b._duringLongPressFunc Event.duringLongPress) := by
  simp [tick, setFsm]

theorem tick_long_release (b : OneButton) (s p n t : Nat) :
    tick (setFsm b LONG_PRESS s p n) false t
      = (setFsm b WAIT_FOR_INITIAL_PRESS s (t % U32) n,
          call b._longPressStopFunc Event.longPressStop) := by
  simp [tick, setFsm]

/-! ## Runs -/

theorem run_nil (b : OneButton) : run b [] = (b, []) := rfl

theorem run_cons (b : OneButton) (p : Poll) (ps : List Poll) :
    run b (p :: ps) = ((run (tick b p.1 p.2).1 ps).1, (tick b p.1 p.2).2 :: (run (tick b p.1 p.2).1 ps).2) := rfl

theorem run_append (l₁ l₂ : List Poll) : ∀ b : OneButton,
    run b (l₁ ++ l₂) = ((run (run b l₁).1 l₂).1, (run b l₁).2 ++ (run (run b l₁).1 l₂).2) := by
  induction l₁ with
  | nil => intro b; simp [run_nil]
  | cons p ps ih => intro b; simp [run_cons, ih]

/-- A run of polls each of which leaves the object untouched and fires nothing. -/
theorem run_stay (b : OneButton) (l : List Poll)
    (h : ∀ p ∈ l, tick b p.1 p.2 = (b, [])) :
    run b l = (b, List.replicate l.length []) := by
  induction l with
  | nil => rfl
  | cons p ps ih =>
    have hp := h p (List.mem_cons_self _ _)
    have ih2 := ih (fun q hq => h q (List.mem_cons_of_mem _ hq))
    simp [run_cons, hp, ih2, List.replicate_succ]

/-! ## Cutting a schedule at a point in time -/

theorem nonDecreasing_split (T : Nat) : ∀ l : List Poll, NonDecreasing l →
    ∃ A B, l = A ++ B ∧ (∀ p ∈ A, p.2 < T) ∧ (∀ p ∈ B, T ≤ p.2) ∧ NonDecreasing B := by
  intro l
  induction l with
  | nil => intro _; exact ⟨[], [], rfl, by simp, by simp, List.Pairwise.nil⟩
  | cons p ps ih =>
    intro hm
    have hm2 : NonDecreasing ps := (List.pairwise_cons.mp hm).2
    by_cases hp : p.2 < T
    · obtain ⟨A, B, hl, hA, hB, hBm⟩ := ih hm2
      refine ⟨p :: A, B, by simp [hl], ?_, hB, hBm⟩
      intro q hq
      rcases List.mem_cons.mp hq with h | h
      · rw [h]; exact hp
      · exact hA q h
    · refine ⟨[], p :: ps, rfl, by simp, ?_, hm⟩
      intro q hq
      rcases List.mem_cons.mp hq with h | h
      · rw [h]; omega
      · have := (List.pairwise_cons.mp hm).1 q h
        omega

theorem nonDecreasing_head (T : Nat) (B : List Poll) (hm : NonDecreasing B)
    (hge : ∀ p ∈ B, T ≤ p.2) (hex : HasPollAt B T) :
    ∃ lvl B', B = (lvl, T) :: B' := by
  cases B with
  | nil => obtain ⟨p, hp, _⟩ := hex; simp at hp
  | cons q qs =>
    obtain ⟨p, hp, hpT⟩ := hex
    have h1 : T ≤ q.2 := hge q (List.mem_cons_self _ _)
    have h2 : q.2 ≤ T := by
      rcases List.mem_cons.mp hp with h | h
      · rw [← h, hpT]
      · have := (List.pairwise_cons.mp hm).1 p h
        omega
    refine ⟨q.1, qs, ?_⟩
    have : q.2 = T := by omega
    rw [← this]

theorem hasPollAt_right (A B : List Poll) (T : Nat) (h : HasPollAt (A ++ B) T)
    (hA : ∀ p ∈ A, p.2 ≠ T) : HasPollAt B T := by
  obtain ⟨p, hp, hpT⟩ := h
  rcases List.mem_append.mp hp with h | h
  · exact absurd hpT (hA p h)
  · exact ⟨p, h, hpT⟩


theorem fresh_eq_setFsm (st sp : Nat) :
    fresh st sp = setFsm (fresh st sp) WAIT_FOR_INITIAL_PRESS (st % U32) (sp % U32) 0 := rfl

theorem findIdx_time (T : Nat) (A : List Poll) (lvl : Bool) (R : List Poll)
    (hA : ∀ p ∈ A, p.2 < T) :
    (A ++ (lvl, T) :: R).findIdx (fun p => p.2 == T) = A.length := by
  induction A with
  | nil => simp [List.findIdx_cons]
  | cons a A ih =>
    have ha : a.2 < T := hA a (List.mem_cons_self _ _)
    have hne : (a.2 == T) = false := by simp; omega
    have := ih (fun q hq => hA q (List.mem_cons_of_mem _ hq))
    simp [List.findIdx_cons, hne, this]

theorem getElem_replicate_append {α : Type} (n : Nat) (a x : α) (R : List α) :
    (a :: (List.replicate n a ++ x :: R))[n + 1]? = some x := by
  induction n with
  | zero => simp
  | succ k ih => simpa [List.replicate_succ] using ih

/-- C1 (single click).  From a freshly constructed recognizer with the default
thresholds 50/400/800 and all callbacks attached, for every schedule of polls
with non-decreasing timestamps in [0,500], pressed exactly at the times below
60, that has a poll at t=0, at t=60 and at t=500: the callbacks fired over the
whole run are press-start once and then single-click once (so the other five
never fire), press-start is fired by the first poll at t=60, and at the end
`isIdle()` holds and `getNumberClicks()` is 1. -/
theorem single_click_schedule (startTime0 stopTime0 : Nat) (l : List Poll)
    (hmono : NonDecreasing l)
    (hlevel : ∀ p ∈ l, p.2 ≤ 500 ∧ p.1 = decide (p.2 < 60))
    (h0 : HasPollAt l 0) (h60 : HasPollAt l 60) (h500 : HasPollAt l 500) :
    fired (fresh startTime0 stopTime0) l = [Event.pressStart, Event.click]
    ∧ (run (fresh startTime0 stopTime0) l).2[l.findIdx (fun p => p.2 == 60)]?
        = some [Event.pressStart]
    ∧ isIdle (run (fresh startTime0 stopTime0) l).1 = true
    ∧ getNumberClicks (run (fresh startTime0 stopTime0) l).1 = 1 := by
  -- the first poll is the press at t = 0
  obtain ⟨lvl0, l1, hl⟩ := nonDecreasing_head 0 l hmono (fun _ _ => Nat.zero_le _) h0
  subst hl
  have hm1 : NonDecreasing l1 := (List.pairwise_cons.mp hmono).2
  have hlvl1 : ∀ p ∈ l1, p.2 ≤ 500 ∧ p.1 = decide (p.2 < 60) :=
    fun p hp => hlevel p (List.mem_cons_of_mem _ hp)
  have hlvl0 : lvl0 = true := by simpa using (hlevel (lvl0, 0) (List.mem_cons_self _ _)).2
  subst hlvl0
  -- the polls before t = 60, the release at t = 60 and the rest
  obtain ⟨A, B, hAB, hA, hB, hBm⟩ := nonDecreasing_split 60 l1 hm1
  subst hAB
  have h60B : HasPollAt B 60 := by
    have : HasPollAt (((true, 0) :: A) ++ B) 60 := h60
    refine hasPollAt_right _ _ _ this ?_
    intro p hp
    rcases List.mem_cons.mp hp with h | h
    · rw [h]; decide
    · have := hA p h; omega
  obtain ⟨lvl60, B1, hB1⟩ := nonDecreasing_head 60 B hBm hB h60B
  subst hB1
  have hlvl60 : lvl60 = false := by
    simpa using (hlvl1 (lvl60, 60) (by simp)).2
  subst hlvl60
  have hBm1 : NonDecreasing B1 := (List.pairwise_cons.mp hBm).2
  -- the released polls up to t = 400 and the ones after
  obtain ⟨C, D, hCD, hC, hD, hDm⟩ := nonDecreasing_split 401 B1 hBm1
  subst hCD
  have h500D : HasPollAt D 500 := by
    have : HasPollAt (((true, 0) :: A ++ (false, 60) :: C) ++ D) 500 := by
      simpa using h500
    refine hasPollAt_right _ _ _ this ?_
    intro p hp
    simp only [List.cons_append, List.mem_cons, List.mem_append] at hp
    rcases hp with h | h | h | h
    · rw [h]; decide
    · have := hA p h; omega
    · rw [h]; decide
    · have := hC p h; omega
  obtain ⟨d, D1, hD1⟩ : ∃ d D1, D = d :: D1 := by
    cases D with
    | nil => obtain ⟨p, hp, _⟩ := h500D; simp at hp
    | cons d D1 => exact ⟨d, D1, rfl⟩
  subst hD1
  -- facts on the polls of each phase
  have fA : ∀ p ∈ A, p.1 = true ∧ p.2 < 60 := by
    intro p hp
    have h1 := hA p hp
    have h2 := (hlvl1 p (by simp [hp])).2
    exact ⟨by simpa [h1] using h2, h1⟩
  have fC : ∀ p ∈ C, p.1 = false ∧ p.2 ≤ 400 := by
    intro p hp
    have h1 := hC p hp
    have h0 := hB p (by simp [hp])
    have h2 := (hlvl1 p (by simp [hp])).2
    refine ⟨?_, by omega⟩
    rw [h2]; simp; omega
  have fd : d.1 = false ∧ 400 < d.2 ∧ d.2 ≤ 500 := by
    have h1 := hD d (List.mem_cons_self _ _)
    have h2 := hlvl1 d (by simp)
    refine ⟨?_, by omega, h2.1⟩
    rw [h2.2]; simp; omega
  have fD : ∀ p ∈ D1, p.1 = false := by
    intro p hp
    have h1 := hD p (List.mem_cons_of_mem _ hp)
    have h2 := hlvl1 p (by simp [hp])
    rw [h2.2]; simp; omega
  -- the run, phase by phase
  set b := fresh startTime0 stopTime0 with hb
  have r0 : tick b true 0 = (setFsm b DEBOUNCE_OR_LONG_PRESS 0 (stopTime0 % U32) 0, []) := by
    rw [hb, fresh_eq_setFsm, tick_idle_pressed]; rfl
  have rA : run (setFsm b DEBOUNCE_OR_LONG_PRESS 0 (stopTime0 % U32) 0) A
      = (setFsm b DEBOUNCE_OR_LONG_PRESS 0 (stopTime0 % U32) 0, List.replicate A.length []) := by
    apply run_stay
    intro p hp
    obtain ⟨h1, h2⟩ := fA p hp
    rw [h1]
    apply tick_debounce_hold
    rw [elapsed16_eq_sub _ _ (Nat.zero_le _) (by unfold U32; omega) (by unfold U16; omega)]
    show p.2 - 0 ≤ 800
    omega
  have r60 : tick (setFsm b DEBOUNCE_OR_LONG_PRESS 0 (stopTime0 % U32) 0) false 60
      = (setFsm b DETECT_CLICK 0 60 0, [Event.pressStart]) := by
    rw [tick_debounce_release b 0 (stopTime0 % U32) 0 60 (by show (50 : Nat) ≤ 60; decide)]; rfl
  have rC : run (setFsm b DETECT_CLICK 0 60 0) C
      = (setFsm b DETECT_CLICK 0 60 0, List.replicate C.length []) := by
    apply run_stay
    intro p hp
    obtain ⟨h1, h2⟩ := fC p hp
    rw [h1]
    apply tick_detect_wait
    rw [elapsed16_eq_sub _ _ (Nat.zero_le _) (by unfold U32; omega) (by unfold U16; omega)]
    show p.2 - 0 ≤ 400
    omega
  have rd : tick (setFsm b DETECT_CLICK 0 60 0) d.1 d.2
      = (setFsm b WAIT_FOR_INITIAL_PRESS 0 60 1, [Event.click]) := by
    obtain ⟨h1, h2, h3⟩ := fd
    rw [tick_detect_close]
    · rfl
    · rw [elapsed16_eq_sub _ _ (Nat.zero_le _) (by unfold U32; omega) (by unfold U16; omega)]
      show 400 < d.2 - 0
      omega
  have rD : run (setFsm b WAIT_FOR_INITIAL_PRESS 0 60 1) D1
      = (setFsm b WAIT_FOR_INITIAL_PRESS 0 60 1, List.replicate D1.length []) := by
    apply run_stay
    intro p hp
    rw [fD p hp, tick_idle_released]
  have hrun : run b ((true, 0) :: (A ++ (false, 60) :: (C ++ d :: D1)))
      = (setFsm b WAIT_FOR_INITIAL_PRESS 0 60 1,
          [] :: (List.replicate A.length [] ++ [Event.pressStart] ::
            (List.replicate C.length [] ++ [Event.click] :: List.replicate D1.length []))) := by
    simp only [run_cons, run_append, r0, rA, r60, rC, rd, rD]
  refine ⟨?_, ?_, ?_, ?_⟩
  · simp [fired, hrun]
  · rw [hrun]
    have hidx : ((true, 0) :: (A ++ (false, 60) :: (C ++ d :: D1))).findIdx (fun p => p.2 == 60)
        = A.length + 1 := by
      rw [List.findIdx_cons]
      simp [findIdx_time 60 A false (C ++ d :: D1) hA]
    rw [hidx]
    exact getElem_replicate_append A.length [] [Event.pressStart] _
  · rw [hrun]; rfl
  · rw [hrun]; rfl


/-- A non-decreasing schedule with a poll at time `T` splits into the polls
before `T`, the first poll at `T` and the polls from `T` on. -/
theorem phase_exact (T : Nat) (L : List Poll) (hm : NonDecreasing L) (hT : HasPollAt L T) :
    ∃ A lvl R, L = A ++ (lvl, T) :: R ∧ (∀ p ∈ A, p.2 < T) ∧ (∀ p ∈ R, T ≤ p.2)
      ∧ NonDecreasing R ∧ (∀ U, T < U → HasPollAt L U → HasPollAt R U) := by
  obtain ⟨A, B, hAB, hA, hB, hBm⟩ := nonDecreasing_split T L hm
  subst hAB
  have hTB : HasPollAt B T :=
    hasPollAt_right _ _ _ hT (fun p hp => by have := hA p hp; omega)
  obtain ⟨lvl, R, hR⟩ := nonDecreasing_head T B hBm hB hTB
  subst hR
  refine ⟨A, lvl, R, rfl, hA, fun p hp => hB p (List.mem_cons_of_mem _ hp),
    (List.pairwise_cons.mp hBm).2, ?_⟩
  intro U hU hex
  have h1 : HasPollAt ((A ++ [(lvl, T)]) ++ R) U := by simpa using hex
  refine hasPollAt_right _ _ _ h1 ?_
  intro p hp
  rcases List.mem_append.mp hp with h | h
  · have := hA p h; omega
  · simp at h; rw [h]; simp; omega

/-- A non-decreasing schedule with a poll at or after time `T` splits into the
polls before `T`, the first poll at or after `T` and the polls that follow. -/
theorem phase_open (T : Nat) (L : List Poll) (hm : NonDecreasing L)
    (hT : ∃ p ∈ L, T ≤ p.2) :
    ∃ A d R, L = A ++ d :: R ∧ (∀ p ∈ A, p.2 < T) ∧ T ≤ d.2 ∧ (∀ p ∈ R, T ≤ p.2) := by
  obtain ⟨A, B, hAB, hA, hB, _⟩ := nonDecreasing_split T L hm
  subst hAB
  cases B with
  | nil =>
    obtain ⟨p, hp, hpT⟩ := hT
    have := hA p (by simpa using hp)
    omega
  | cons d R =>
    exact ⟨A, d, R, rfl, hA, hB d (List.mem_cons_self _ _),
      fun p hp => hB p (List.mem_cons_of_mem _ hp)⟩

theorem hasPollAt_ge (L : List Poll) (U T : Nat) (h : HasPollAt L U) (hTU : T ≤ U) :
    ∃ p ∈ L, T ≤ p.2 := by
  obtain ⟨p, hp, hpU⟩ := h
  exact ⟨p, hp, by omega⟩

/-- C2 (double click).  From a freshly constructed recognizer with the default
thresholds and all callbacks attached, for every schedule of polls with
non-decreasing timestamps in [0,610], pressed exactly at the times in [0,60)
and [150,210), that has polls at t=0, 60, 150, 210 and 610: the callbacks
fired over the whole run are press-start once and then double-click once (so
single-click, multi-click and the long-press callbacks never fire), and
finally `isIdle()` holds and `getNumberClicks()` is 2. -/
theorem double_click_schedule (startTime0 stopTime0 : Nat) (l : List Poll)
    (hmono : NonDecreasing l)
    (hlevel : ∀ p ∈ l, p.2 ≤ 610 ∧ p.1 = decide (p.2 < 60 ∨ (150 ≤ p.2 ∧ p.2 < 210)))
    (h0 : HasPollAt l 0) (h60 : HasPollAt l 60) (h150 : HasPollAt l 150)
    (h210 : HasPollAt l 210) (h610 : HasPollAt l 610) :
    fired (fresh startTime0 stopTime0) l = [Event.pressStart, Event.doubleClick]
    ∧ isIdle (run (fresh startTime0 stopTime0) l).1 = true
    ∧ getNumberClicks (run (fresh startTime0 stopTime0) l).1 = 2 := by
  obtain ⟨A0, v0, R0, e0, hA0, hR0, m0, k0⟩ := phase_exact 0 l hmono h0
  obtain ⟨A1, v1, R1, e1, hA1, hR1, m1, k1⟩ := phase_exact 60 R0 m0 (k0 60 (by decide) h60)
  obtain ⟨A2, v2, R2, e2, hA2, hR2, m2, k2⟩ :=
    phase_exact 150 R1 m1 (k1 150 (by decide) (k0 150 (by decide) h150))
  obtain ⟨A3, v3, R3, e3, hA3, hR3, m3, k3⟩ :=
    phase_exact 210 R2 m2 (k2 210 (by decide) (k1 210 (by decide) (k0 210 (by decide) h210)))
  have h610R : HasPollAt R3 610 :=
    k3 610 (by decide) (k2 610 (by decide) (k1 610 (by decide) (k0 610 (by decide) h610)))
  obtain ⟨A4, d, R4, e4, hA4, hd, hR4⟩ := phase_open 551 R3 m3 (hasPollAt_ge R3 610 551 h610R (by decide))
  subst e4 e3 e2 e1 e0
  have hA0nil : A0 = [] := by
    cases A0 with
    | nil => rfl
    | cons a _ => exact absurd (hA0 a (List.mem_cons_self _ _)) (Nat.not_lt_zero _)
  subst hA0nil
  -- levels and times of the polls of each phase
  have f0 : v0 = true := by simpa using (hlevel (v0, 0) (by simp)).2
  have f1 : ∀ p ∈ A1, p.1 = true ∧ p.2 < 60 := fun p hp =>
    ⟨by have h := (hlevel p (by simp [hp])).2; have := hA1 p hp; rw [h]; simp; omega, hA1 p hp⟩
  have f2 : v1 = false := by simpa using (hlevel (v1, 60) (by simp)).2
  have f3 : ∀ p ∈ A2, p.1 = false ∧ p.2 < 150 := fun p hp =>
    ⟨by have h := (hlevel p (by simp [hp])).2; have := hA2 p hp; have := hR0 p (by simp [hp])
        have := hR1 p (by simp [hp]); rw [h]; simp; omega, hA2 p hp⟩
  have f4 : v2 = true := by simpa using (hlevel (v2, 150) (by simp)).2
  have f5 : ∀ p ∈ A3, p.1 = true := fun p hp => by
    have h := (hlevel p (by simp [hp])).2; have := hA3 p hp; have := hR2 p (by simp [hp])
    rw [h]; simp; omega
  have f6 : v3 = false := by simpa using (hlevel (v3, 210) (by simp)).2
  have f7 : ∀ p ∈ A4, p.1 = false ∧ 210 ≤ p.2 ∧ p.2 < 551 := fun p hp =>
    ⟨by have h := (hlevel p (by simp [hp])).2; have := hR3 p (by simp [hp]); rw [h]; simp; omega,
      hR3 p (by simp [hp]), hA4 p hp⟩
  have f8 : d.1 = false ∧ 551 ≤ d.2 ∧ d.2 ≤ 610 := by
    have h := hlevel d (by simp)
    exact ⟨by rw [h.2]; simp; omega, hd, h.1⟩
  have f9 : ∀ p ∈ R4, p.1 = false := fun p hp => by
    have h := (hlevel p (by simp [hp])).2; have := hR4 p hp; rw [h]; simp; omega
  subst f0 f2 f4 f6
  -- the run, phase by phase
  have t0 : tick (fresh startTime0 stopTime0) true 0
      = (setFsm (fresh startTime0 stopTime0) DEBOUNCE_OR_LONG_PRESS 0 (stopTime0 % U32) 0, []) := by
    rw [fresh_eq_setFsm, tick_idle_pressed]; rfl
  generalize hb : fresh startTime0 stopTime0 = b at t0 ⊢
  have hth : b._debounceTicks = 50 ∧ b._clickTicks = 400 ∧ b._pressTicks = 800
      ∧ b._pressStartFunc = true ∧ b._doubleClickFunc = true := by
    subst hb; exact ⟨rfl, rfl, rfl, rfl, rfl⟩
  obtain ⟨hD, hC, hP, hps, hdc⟩ := hth
  have r1 : run (setFsm b DEBOUNCE_OR_LONG_PRESS 0 (stopTime0 % U32) 0) A1
      = (setFsm b DEBOUNCE_OR_LONG_PRESS 0 (stopTime0 % U32) 0, List.replicate A1.length []) := by
    apply run_stay
    intro p hp
    obtain ⟨h1, h2⟩ := f1 p hp
    rw [h1]
    apply tick_debounce_hold
    rw [elapsed16_eq_sub _ _ (Nat.zero_le _) (by unfold U32; omega) (by unfold U16; omega), hP]
    omega
  have t1 : tick (setFsm b DEBOUNCE_OR_LONG_PRESS 0 (stopTime0 % U32) 0) false 60
      = (setFsm b DETECT_CLICK 0 60 0, [Event.pressStart]) := by
    rw [tick_debounce_release b 0 (stopTime0 % U32) 0 60 (by rw [hD]; decide), hps]; rfl
  have r2 : run (setFsm b DETECT_CLICK 0 60 0) A2
      = (setFsm b DETECT_CLICK 0 60 0, List.replicate A2.length []) := by
    apply run_stay
    intro p hp
    obtain ⟨h1, h2⟩ := f3 p hp
    rw [h1]
    apply tick_detect_wait
    rw [elapsed16_eq_sub _ _ (Nat.zero_le _) (by unfold U32; omega) (by unfold U16; omega), hC]
    omega
  have t2 : tick (setFsm b DETECT_CLICK 0 60 0) true 150
      = (setFsm b COUNT_CLICKS 150 60 0, []) := by
    rw [tick_detect_repress b 0 60 0 150 (by rw [hC]; decide) (by rw [hD]; decide)]; rfl
  have r3 : run (setFsm b COUNT_CLICKS 150 60 0) A3
      = (setFsm b COUNT_CLICKS 150 60 0, List.replicate A3.length []) := by
    apply run_stay
    intro p hp
    rw [f5 p hp, tick_count_hold]
  have t3 : tick (setFsm b COUNT_CLICKS 150 60 0) false 210
      = (setFsm b DETECT_CLICK 150 210 1, []) := by
    rw [tick_count_release b 150 60 0 210 (by rw [hD]; decide)]; rfl
  have r4 : run (setFsm b DETECT_CLICK 150 210 1) A4
      = (setFsm b DETECT_CLICK 150 210 1, List.replicate A4.length []) := by
    apply run_stay
    intro p hp
    obtain ⟨h1, h2, h3⟩ := f7 p hp
    rw [h1]
    apply tick_detect_wait
    rw [elapsed16_eq_sub _ _ (by omega) (by unfold U32; omega) (by unfold U16; omega), hC]
    omega
  have t4 : tick (setFsm b DETECT_CLICK 150 210 1) d.1 d.2
      = (setFsm b WAIT_FOR_INITIAL_PRESS 150 210 2, [Event.doubleClick]) := by
    obtain ⟨h1, h2, h3⟩ := f8
    rw [tick_detect_close]
    · show (_, dispatchClicks b 2) = _
      simp [dispatchClicks, hdc, call]
      rfl
    · rw [elapsed16_eq_sub _ _ (by omega) (by unfold U32; omega) (by unfold U16; omega), hC]
      omega
  have r5 : run (setFsm b WAIT_FOR_INITIAL_PRESS 150 210 2) R4
      = (setFsm b WAIT_FOR_INITIAL_PRESS 150 210 2, List.replicate R4.length []) := by
    apply run_stay
    intro p hp
    rw [f9 p hp, tick_idle_released]
  have hrun : run b ([] ++ (true, 0) :: (A1 ++ (false, 60) :: (A2 ++ (true, 150) ::
      (A3 ++ (false, 210) :: (A4 ++ d :: R4)))))
      = (setFsm b WAIT_FOR_INITIAL_PRESS 150 210 2,
          [] :: (List.replicate A1.length [] ++ [Event.pressStart] ::
            (List.replicate A2.length [] ++ [] :: (List.replicate A3.length [] ++ [] ::
              (List.replicate A4.length [] ++ [Event.doubleClick] ::
                List.replicate R4.length []))))) := by
    simp only [List.nil_append, run_cons, run_append, t0, r1, t1, r2, t2, r3, t3, r4, t4, r5]
  refine ⟨?_, ?_, ?_⟩
  · rw [fired, hrun]; simp
  · rw [hrun]; rfl
  · rw [hrun]; rfl

/-- C4 (multi-click).  From a freshly constructed recognizer with the default
thresholds and all callbacks attached, for every schedule of polls with
non-decreasing timestamps in [0,760], pressed exactly at the times in [0,60),
[150,210) and [300,360), that has polls at t=0, 60, 150, 210, 300, 360 and
760: the callbacks fired over the whole run are press-start once and then
multi-click once (so single-click and double-click never fire), and finally
`isIdle()` holds and `getNumberClicks()` is 3. -/
theorem multi_click_schedule (startTime0 stopTime0 : Nat) (l : List Poll)
    (hmono : NonDecreasing l)
    (hlevel : ∀ p ∈ l, p.2 ≤ 760 ∧
      p.1 = decide (p.2 < 60 ∨ (150 ≤ p.2 ∧ p.2 < 210) ∨ (300 ≤ p.2 ∧ p.2 < 360)))
    (h0 : HasPollAt l 0) (h60 : HasPollAt l 60) (h150 : HasPollAt l 150)
    (h210 : HasPollAt l 210) (h300 : HasPollAt l 300) (h360 : HasPollAt l 360)
    (h760 : HasPollAt l 760) :
    fired (fresh startTime0 stopTime0) l = [Event.pressStart, Event.multiClick]
    ∧ isIdle (run (fresh startTime0 stopTime0) l).1 = true
    ∧ getNumberClicks (run (fresh startTime0 stopTime0) l).1 = 3 := by
  obtain ⟨A0, v0, R0, e0, hA0, hR0, m0, k0⟩ := phase_exact 0 l hmono h0
  obtain ⟨A1, v1, R1, e1, hA1, hR1, m1, k1⟩ := phase_exact 60 R0 m0 (k0 60 (by decide) h60)
  obtain ⟨A2, v2, R2, e2, hA2, hR2, m2, k2⟩ :=
    phase_exact 150 R1 m1 (k1 150 (by decide) (k0 150 (by decide) h150))
  obtain ⟨A3, v3, R3, e3, hA3, hR3, m3, k3⟩ :=
    phase_exact 210 R2 m2 (k2 210 (by decide) (k1 210 (by decide) (k0 210 (by decide) h210)))
  obtain ⟨A4, v4, R4, e4, hA4, hR4, m4, k4⟩ :=
    phase_exact 300 R3 m3 (k3 300 (by decide) (k2 300 (by decide) (k1 300 (by decide)
      (k0 300 (by decide) h300))))
  obtain ⟨A5, v5, R5, e5, hA5, hR5, m5, k5⟩ :=
    phase_exact 360 R4 m4 (k4 360 (by decide) (k3 360 (by decide) (k2 360 (by decide)
      (k1 360 (by decide) (k0 360 (by decide) h360)))))
  have h760R : HasPollAt R5 760 :=
    k5 760 (by decide) (k4 760 (by decide) (k3 760 (by decide) (k2 760 (by decide)
      (k1 760 (by decide) (k0 760 (by decide) h760)))))
  obtain ⟨A6, d, R6, e6, hA6, hd, hR6⟩ :=
    phase_open 701 R5 m5 (hasPollAt_ge R5 760 701 h760R (by decide))
  subst e6 e5 e4 e3 e2 e1 e0
  have hA0nil : A0 = [] := by
    cases A0 with
    | nil => rfl
    | cons a _ => exact absurd (hA0 a (List.mem_cons_self _ _)) (Nat.not_lt_zero _)
  subst hA0nil
  -- levels and times of the polls of each phase
  have f0 : v0 = true := by simpa using (hlevel (v0, 0) (by simp)).2
  have f1 : ∀ p ∈ A1, p.1 = true ∧ p.2 < 60 := fun p hp =>
    ⟨by have h := (hlevel p (by simp [hp])).2; have := hA1 p hp; rw [h]; simp; omega, hA1 p hp⟩
  have f2 : v1 = false := by simpa using (hlevel (v1, 60) (by simp)).2
  have f3 : ∀ p ∈ A2, p.1 = false ∧ p.2 < 150 := fun p hp =>
    ⟨by have h := (hlevel p (by simp [hp])).2; have := hA2 p hp
        have := hR1 p (by simp [hp]); rw [h]; simp; omega, hA2 p hp⟩
  have f4 : v2 = true := by simpa using (hlevel (v2, 150) (by simp)).2
  have f5 : ∀ p ∈ A3, p.1 = true := fun p hp => by
    have h := (hlevel p (by simp [hp])).2; have := hA3 p hp; have := hR2 p (by simp [hp])
    rw [h]; simp; omega
  have f6 : v3 = false := by simpa using (hlevel (v3, 210) (by simp)).2
  have f7 : ∀ p ∈ A4, p.1 = false ∧ 210 ≤ p.2 ∧ p.2 < 300 := fun p hp =>
    ⟨by have h := (hlevel p (by simp [hp])).2; have := hR3 p (by simp [hp]); have := hA4 p hp
        rw [h]; simp; omega,
      hR3 p (by simp [hp]), hA4 p hp⟩
  have f8 : v4 = true := by simpa using (hlevel (v4, 300) (by simp)).2
  have f9 : ∀ p ∈ A5, p.1 = true := fun p hp => by
    have h := (hlevel p (by simp [hp])).2; have := hA5 p hp; have := hR4 p (by simp [hp])
    rw [h]; simp; omega
  have f10 : v5 = false := by simpa using (hlevel (v5, 360) (by simp)).2
  have f11 : ∀ p ∈ A6, p.1 = false ∧ 360 ≤ p.2 ∧ p.2 < 701 := fun p hp =>
    ⟨by have h := (hlevel p (by simp [hp])).2; have := hR5 p (by simp [hp]); rw [h]; simp; omega,
      hR5 p (by simp [hp]), hA6 p hp⟩
  have f12 : d.1 = false ∧ 701 ≤ d.2 ∧ d.2 ≤ 760 := by
    have h := hlevel d (by simp)
    exact ⟨by rw [h.2]; simp; omega, hd, h.1⟩
  have f13 : ∀ p ∈ R6, p.1 = false := fun p hp => by
    have h := (hlevel p (by simp [hp])).2; have := hR6 p hp; rw [h]; simp; omega
  subst f0 f2 f4 f6 f8 f10
  -- the run, phase by phase
  have t0 : tick (fresh startTime0 stopTime0) true 0
      = (setFsm (fresh startTime0 stopTime0) DEBOUNCE_OR_LONG_PRESS 0 (stopTime0 % U32) 0, []) := by
    rw [fresh_eq_setFsm, tick_idle_pressed]; rfl
  generalize hb : fresh startTime0 stopTime0 = b at t0 ⊢
  have hth : b._debounceTicks = 50 ∧ b._clickTicks = 400 ∧ b._pressTicks = 800
      ∧ b._pressStartFunc = true ∧ b._multiClickFunc = true := by
    subst hb; exact ⟨rfl, rfl, rfl, rfl, rfl⟩
  obtain ⟨hD, hC, hP, hps, hmc⟩ := hth
  have r1 : run (setFsm b DEBOUNCE_OR_LONG_PRESS 0 (stopTime0 % U32) 0) A1
      = (setFsm b DEBOUNCE_OR_LONG_PRESS 0 (stopTime0 % U32) 0, List.replicate A1.length []) := by
    apply run_stay
    intro p hp
    obtain ⟨h1, h2⟩ := f1 p hp
    rw [h1]
    apply tick_debounce_hold
    rw [elapsed16_eq_sub _ _ (Nat.zero_le _) (by unfold U32; omega) (by unfold U16; omega), hP]
    omega
  have t1 : tick (setFsm b DEBOUNCE_OR_LONG_PRESS 0 (stopTime0 % U32) 0) false 60
      = (setFsm b DETECT_CLICK 0 60 0, [Event.pressStart]) := by
    rw [tick_debounce_release b 0 (stopTime0 % U32) 0 60 (by rw [hD]; decide), hps]; rfl
  have r2 : run (setFsm b DETECT_CLICK 0 60 0) A2
      = (setFsm b DETECT_CLICK 0 60 0, List.replicate A2.length []) := by
    apply run_stay
    intro p hp
    obtain ⟨h1, h2⟩ := f3 p hp
    rw [h1]
    apply tick_detect_wait
    rw [elapsed16_eq_sub _ _ (Nat.zero_le _) (by unfold U32; omega) (by unfold U16; omega), hC]
    omega
  have t2 : tick (setFsm b DETECT_CLICK 0 60 0) true 150
      = (setFsm b COUNT_CLICKS 150 60 0, []) := by
    rw [tick_detect_repress b 0 60 0 150 (by rw [hC]; decide) (by rw [hD]; decide)]; rfl
  have r3 : run (setFsm b COUNT_CLICKS 150 60 0) A3
      = (setFsm b COUNT_CLICKS 150 60 0, List.replicate A3.length []) := by
    apply run_stay
    intro p hp
    rw [f5 p hp, tick_count_hold]
  have t3 : tick (setFsm b COUNT_CLICKS 150 60 0) false 210
      = (setFsm b DETECT_CLICK 150 210 1, []) := by
    rw [tick_count_release b 150 60 0 210 (by rw [hD]; decide)]; rfl
  have r4 : run (setFsm b DETECT_CLICK 150 210 1) A4
      = (setFsm b DETECT_CLICK 150 210 1, List.replicate A4.length []) := by
    apply run_stay
    intro p hp
    obtain ⟨h1, h2, h3⟩ := f7 p hp
    rw [h1]
    apply tick_detect_wait
    rw [elapsed16_eq_sub _ _ (by omega) (by unfold U32; omega) (by unfold U16; omega), hC]
    omega
  have t4 : tick (setFsm b DETECT_CLICK 150 210 1) true 300
      = (setFsm b COUNT_CLICKS 300 210 1, []) := by
    rw [tick_detect_repress b 150 210 1 300 (by rw [hC]; decide) (by rw [hD]; decide)]; rfl
  have r5 : run (setFsm b COUNT_CLICKS 300 210 1) A5
      = (setFsm b COUNT_CLICKS 300 210 1, List.replicate A5.length []) := by
    apply run_stay
    intro p hp
    rw [f9 p hp, tick_count_hold]
  have t5 : tick (setFsm b COUNT_CLICKS 300 210 1) false 360
      = (setFsm b DETECT_CLICK 300 360 2, []) := by
    rw [tick_count_release b 300 210 1 360 (by rw [hD]; decide)]; rfl
  have r6 : run (setFsm b DETECT_CLICK 300 360 2) A6
      = (setFsm b DETECT_CLICK 300 360 2, List.replicate A6.length []) := by
    apply run_stay
    intro p hp
    obtain ⟨h1, h2, h3⟩ := f11 p hp
    rw [h1]
    apply tick_detect_wait
    rw [elapsed16_eq_sub _ _ (by omega) (by unfold U32; omega) (by unfold U16; omega), hC]
    omega
  have t6 : tick (setFsm b DETECT_CLICK 300 360 2) d.1 d.2
      = (setFsm b WAIT_FOR_INITIAL_PRESS 300 360 3, [Event.multiClick]) := by
    obtain ⟨h1, h2, h3⟩ := f12
    rw [tick_detect_close]
    · show (_, dispatchClicks b 3) = _
      simp [dispatchClicks, hmc, call]
      rfl
    · rw [elapsed16_eq_sub _ _ (by omega) (by unfold U32; omega) (by unfold U16; omega), hC]
      omega
  have r7 : run (setFsm b WAIT_FOR_INITIAL_PRESS 300 360 3) R6
      = (setFsm b WAIT_FOR_INITIAL_PRESS 300 360 3, List.replicate R6.length []) := by
    apply run_stay
    intro p hp
    rw [f13 p hp, tick_idle_released]
  have hrun : run b ([] ++ (true, 0) :: (A1 ++ (false, 60) :: (A2 ++ (true, 150) ::
      (A3 ++ (false, 210) :: (A4 ++ (true, 300) :: (A5 ++ (false, 360) :: (A6 ++ d :: R6)))))))
      = (setFsm b WAIT_FOR_INITIAL_PRESS 300 360 3,
          [] :: (List.replicate A1.length [] ++ [Event.pressStart] ::
            (List.replicate A2.length [] ++ [] :: (List.replicate A3.length [] ++ [] ::
              (List.replicate A4.length [] ++ [] :: (List.replicate A5.length [] ++ [] ::
                (List.replicate A6.length [] ++ [Event.multiClick] ::
                  List.replicate R6.length []))))))) := by
    simp only [List.nil_append, run_cons, run_append, t0, r1, t1, r2, t2, r3, t3, r4, t4, r5, t5,
      r6, t6, r7]
  refine ⟨?_, ?_, ?_⟩
  · rw [fired, hrun]; simp
  · rw [hrun]; rfl
  · rw [hrun]; rfl

theorem states_cons (b : OneButton) (p : Poll) (ps : List Poll) :
    states b (p :: ps) = (tick b p.1 p.2).1 :: states (tick b p.1 p.2).1 ps := rfl

theorem states_append (l₁ l₂ : List Poll) : ∀ b : OneButton,
    states b (l₁ ++ l₂) = states b l₁ ++ states (run b l₁).1 l₂ := by
  induction l₁ with
  | nil => intro b; simp [states, run_nil]
  | cons p ps ih => intro b; simp [states_cons, run_cons, ih]

/-- A run of polls each of which leaves the object untouched and fires the
same callbacks `e`. -/
theorem run_const (b : OneButton) (e : List Event) (l : List Poll)
    (h : ∀ p ∈ l, tick b p.1 p.2 = (b, e)) :
    run b l = (b, List.replicate l.length e) ∧ states b l = List.replicate l.length b := by
  induction l with
  | nil => exact ⟨rfl, rfl⟩
  | cons p ps ih =>
    have hp := h p (List.mem_cons_self _ _)
    have ih2 := ih (fun q hq => h q (List.mem_cons_of_mem _ hq))
    simp [run_cons, states_cons, hp, ih2.1, ih2.2, List.replicate_succ]

/-- C3 (long press).  From a freshly constructed recognizer with the default
thresholds and all callbacks attached, for every run of pressed polls at the
times `ts` (the first one at 0) followed by one released poll at `tr`, where
some pressed poll is later than 800 and the first such time is below 65536:
the polls before that one fire nothing, that poll fires long-press-start,
every later pressed poll fires during-long-press, the released poll fires
long-press-stop (so press-start and the click callbacks never fire);
`isLongPressed()` is false after each poll before the long-press-start poll,
true after every poll from that one up to the last pressed poll and false
after the released poll; and the recognizer is idle in the final state.  The
timestamps need not be non-decreasing for this to hold. -/
theorem long_press_run (startTime0 stopTime0 : Nat) (ts : List Nat) (tr first : Nat)
    (hhead : ts.head? = some 0)
    (hfirst : ts.find? (fun t => decide (800 < t)) = some first) (hbound : first < 65536) :
    (run (fresh startTime0 stopTime0) (ts.map (fun t => (true, t)) ++ [(false, tr)])).2
        = List.replicate (ts.findIdx (fun t => decide (800 < t))) []
          ++ [Event.longPressStart]
            :: (List.replicate (ts.length - (ts.findIdx (fun t => decide (800 < t)) + 1))
                  [Event.duringLongPress]
                ++ [[Event.longPressStop]])
    ∧ (states (fresh startTime0 stopTime0)
          (ts.map (fun t => (true, t)) ++ [(false, tr)])).map isLongPressed
        = List.replicate (ts.findIdx (fun t => decide (800 < t))) false
          ++ (List.replicate (ts.length - ts.findIdx (fun t => decide (800 < t))) true
            ++ [false])
    ∧ isIdle (run (fresh startTime0 stopTime0)
          (ts.map (fun t => (true, t)) ++ [(false, tr)])).1 = true := by
  obtain ⟨hgt, pre, post, hsplit, hpre⟩ := List.find?_eq_some.mp hfirst
  subst hsplit
  have hgt2 : 800 < first := by simpa using hgt
  have hpre2 : ∀ t ∈ pre, t ≤ 800 := fun t ht => by simpa using hpre t ht
  -- the first pressed poll is at t = 0 and lies before the long-press poll
  obtain ⟨pre1, hp1⟩ : ∃ pre1, pre = 0 :: pre1 := by
    cases pre with
    | nil => simp at hhead; omega
    | cons a pre1 => simp at hhead; exact ⟨pre1, by rw [hhead]⟩
  subst hp1
  have hidx : (0 :: pre1 ++ first :: post).findIdx (fun t => decide (800 < t))
      = pre1.length + 1 := by
    have h1 : ((0 :: pre1) ++ first :: post).findIdx (fun t => decide (800 < t))
        = (0 :: pre1).length := by
      rw [List.findIdx_append, List.findIdx_eq_length_of_false (fun t ht => by simpa using hpre2 t ht)]
      simp [List.findIdx_cons, hgt2]
    simpa using h1
  rw [hidx]
  have hlen : (0 :: pre1 ++ first :: post).length - (pre1.length + 1 + 1) = post.length := by
    simp; omega
  have hlen2 : (0 :: pre1 ++ first :: post).length - (pre1.length + 1) = post.length + 1 := by
    simp
  rw [hlen, hlen2]
  have hl : (0 :: pre1 ++ first :: post).map (fun t => ((true, t) : Poll)) ++ [(false, tr)]
      = (true, 0) :: (pre1.map (fun t => ((true, t) : Poll)) ++ (true, first) ::
          (post.map (fun t => ((true, t) : Poll)) ++ [(false, tr)])) := by
    simp
  rw [hl]
  -- the run, phase by phase
  have t0 : tick (fresh startTime0 stopTime0) true 0
      = (setFsm (fresh startTime0 stopTime0) DEBOUNCE_OR_LONG_PRESS 0 (stopTime0 % U32) 0, []) := by
    rw [fresh_eq_setFsm, tick_idle_pressed]; rfl
  generalize hb : fresh startTime0 stopTime0 = b at t0 ⊢
  have hth : b._pressTicks = 800 ∧ b._longPressStartFunc = true
      ∧ b._duringLongPressFunc = true ∧ b._longPressStopFunc = true := by
    subst hb; exact ⟨rfl, rfl, rfl, rfl⟩
  obtain ⟨hP, hls, hdl, hlp⟩ := hth
  have r1 := run_const (setFsm b DEBOUNCE_OR_LONG_PRESS 0 (stopTime0 % U32) 0) []
    (pre1.map (fun t => ((true, t) : Poll))) (by
      intro p hp
      obtain ⟨t, ht, rfl⟩ := List.mem_map.mp hp
      have h800 := hpre2 t (List.mem_cons_of_mem _ ht)
      apply tick_debounce_hold
      rw [elapsed16_eq_sub _ _ (Nat.zero_le _) (by unfold U32; omega) (by unfold U16; omega), hP]
      omega)
  have t1 : tick (setFsm b DEBOUNCE_OR_LONG_PRESS 0 (stopTime0 % U32) 0) true first
      = (setFsm b LONG_PRESS 0 (first % U32) 1, [Event.longPressStart]) := by
    rw [tick_debounce_long, hls]
    · rfl
    · rw [elapsed16_eq_sub _ _ (Nat.zero_le _) (by unfold U32; omega) (by unfold U16; omega), hP]
      omega
  have r2 := run_const (setFsm b LONG_PRESS 0 (first % U32) 1) [Event.duringLongPress]
    (post.map (fun t => ((true, t) : Poll))) (by
      intro p hp
      obtain ⟨t, _, rfl⟩ := List.mem_map.mp hp
      rw [tick_long_hold, hdl]; rfl)
  have t2 : tick (setFsm b LONG_PRESS 0 (first % U32) 1) false tr
      = (setFsm b WAIT_FOR_INITIAL_PRESS 0 (tr % U32) 1, [Event.longPressStop]) := by
    rw [tick_long_release, hlp]; rfl
  simp only [List.length_map] at r1 r2
  refine ⟨?_, ?_, ?_⟩
  · simp only [run_cons, run_append, run_nil, t0, r1.1, t1, r2.1, t2]
    simp [List.replicate_succ]
  · simp only [states_cons, states_append, run_cons, run_append, run_nil, states, t0, r1.1, r1.2,
      t1, r2.1, r2.2, t2]
    simp [List.replicate_succ, isLongPressed, setFsm]
    rfl
  · simp only [run_cons, run_append, run_nil, t0, r1.1, t1, r2.1, t2]
    rfl

/-- C5, counterexample.  The click-gap window is not measured from the
recorded release time.  With the default thresholds, after press at 0 and
release at 60 the recognizer is in DETECT_CLICK with `_stopTime` 60; a released
poll at 401 closes the sequence with single-click although only 341 ms, not
more than 400, have passed since the release.  And after press at 0 and release
at 450, a pressed poll at 520 does not move to COUNT_CLICKS: it closes the
sequence with single-click and the recognizer is idle. -/
theorem click_gap_from_release_refuted :
    (run (fresh 0 0) [(true, 0), (false, 60)]).1._state = DETECT_CLICK
    ∧ (run (fresh 0 0) [(true, 0), (false, 60)]).1._stopTime = 60
    ∧ ¬ (subU32 401 60 > (run (fresh 0 0) [(true, 0), (false, 60)]).1._clickTicks)
    ∧ (run (fresh 0 0) [(true, 0), (false, 60), (false, 401)]).2
        = [[], [Event.pressStart], [Event.click]]
    ∧ isIdle (run (fresh 0 0) [(true, 0), (false, 60), (false, 401)]).1 = true
    ∧ (run (fresh 0 0) [(true, 0), (false, 450)]).1._state = DETECT_CLICK
    ∧ (run (fresh 0 0) [(true, 0), (false, 450), (true, 520)]).1._state
        = WAIT_FOR_INITIAL_PRESS
    ∧ (run (fresh 0 0) [(true, 0), (false, 450), (true, 520)]).2
        = [[], [Event.pressStart], [Event.click]] := by
  decide

/-- C5, amended.  The click-gap window is measured from `_startTime`, the
recorded press time, as a 16-bit duration.  For every recognizer in
DETECT_CLICK and every poll: the poll ends in WAIT_FOR_INITIAL_PRESS exactly
when `(uint16_t)(now - _startTime)` exceeds `_clickTicks`; in that case
`_nClicks` is incremented (modulo 256) and the callbacks fired are those of
the `switch` on the new count, exactly one click callback when the three are
attached; otherwise a pressed sample with `(uint16_t)(now - _stopTime)` above
`_debounceTicks` records the press time and moves to COUNT_CLICKS without
firing anything.  In particular, with the default thresholds, after press at
0 and release at 60, released polls at times up to 400 fire nothing and the
next poll at a time in (400, 65536) fires single-click; and after press at 0
and release at 450 a pressed poll at 520 fires single-click. -/
theorem click_gap_from_press_start (b : OneButton) (lvl : Bool) (now : Nat)
    (hs : b._state = DETECT_CLICK) :
    ((tick b lvl now).1._state = WAIT_FOR_INITIAL_PRESS
        ↔ b._clickTicks < elapsed16 (now % U32) b._startTime)
    ∧ (b._clickTicks < elapsed16 (now % U32) b._startTime →
        (tick b lvl now).1._nClicks = (b._nClicks + 1) % U8
        ∧ (tick b lvl now).2 = dispatchClicks b ((b._nClicks + 1) % U8)
        ∧ (b._clickFunc = true → b._doubleClickFunc = true → b._multiClickFunc = true →
            ∃ e, isClickEvent e = true ∧ (tick b lvl now).2 = [e]))
    ∧ (elapsed16 (now % U32) b._startTime ≤ b._clickTicks → lvl = true →
        b._debounceTicks < elapsed16 (now % U32) b._stopTime →
        tick b lvl now = ({ b with _state := COUNT_CLICKS, _startTime := now % U32 }, []))
    ∧ (∀ (startTime0 stopTime0 : Nat) (ws : List Nat) (t : Nat) (last : Bool),
        (∀ w ∈ ws, w ≤ 400) → 400 < t → t < 65536 →
        (run (fresh startTime0 stopTime0)
            ((true, 0) :: (false, 60) :: (ws.map (fun w => (false, w)) ++ [(last, t)]))).2
          = [] :: [Event.pressStart] :: (List.replicate ws.length [] ++ [[Event.click]]))
    ∧ (run (fresh 0 0) [(true, 0), (false, 450), (true, 520)]).2
        = [[], [Event.pressStart], [Event.click]] := by
  refine ⟨?_, ?_, ?_, ?_, by decide⟩
  · by_cases h : b._clickTicks < elapsed16 (now % U32) b._startTime
    · simp [tick, hs, h]
    · simp only [h, iff_false]
      cases lvl <;> by_cases h2 : b._debounceTicks < elapsed16 (now % U32) b._stopTime <;>
        simp [tick, hs, h, h2]
  · intro h
    refine ⟨by simp [tick, hs, h], by simp [tick, hs, h], ?_⟩
    intro h1 h2 h3
    have : (tick b lvl now).2 = dispatchClicks b ((b._nClicks + 1) % U8) := by
      simp [tick, hs, h]
    rw [this]
    unfold dispatchClicks
    split
    · exact ⟨Event.click, rfl, by simp [call, h1]⟩
    · exact ⟨Event.doubleClick, rfl, by simp [call, h2]⟩
    · exact ⟨Event.multiClick, rfl, by simp [call, h3]⟩
  · intro h hl h2
    subst hl
    simp [tick, hs, Nat.not_lt.mpr h, h2]
  · intro startTime0 stopTime0 ws t last hws ht ht2
    have t0 : tick (fresh startTime0 stopTime0) true 0
        = (setFsm (fresh startTime0 stopTime0) DEBOUNCE_OR_LONG_PRESS 0 (stopTime0 % U32) 0,
            []) := by
      rw [fresh_eq_setFsm, tick_idle_pressed]; rfl
    generalize hc : fresh startTime0 stopTime0 = c at t0 ⊢
    have hth : c._debounceTicks = 50 ∧ c._clickTicks = 400 ∧ c._pressStartFunc = true
        ∧ c._clickFunc = true := by
      subst hc; exact ⟨rfl, rfl, rfl, rfl⟩
    obtain ⟨hD, hC, hps, hcf⟩ := hth
    have t1 : tick (setFsm c DEBOUNCE_OR_LONG_PRESS 0 (stopTime0 % U32) 0) false 60
        = (setFsm c DETECT_CLICK 0 60 0, [Event.pressStart]) := by
      rw [tick_debounce_release c 0 (stopTime0 % U32) 0 60 (by rw [hD]; decide), hps]; rfl
    have r1 := run_stay (setFsm c DETECT_CLICK 0 60 0) (ws.map (fun w => ((false, w) : Poll))) (by
      intro p hp
      obtain ⟨w, hw, rfl⟩ := List.mem_map.mp hp
      have := hws w hw
      apply tick_detect_wait
      rw [elapsed16_eq_sub _ _ (Nat.zero_le _) (by unfold U32; omega) (by unfold U16; omega), hC]
      omega)
    have t2 : tick (setFsm c DETECT_CLICK 0 60 0) last t
        = (setFsm c WAIT_FOR_INITIAL_PRESS 0 60 1, [Event.click]) := by
      rw [tick_detect_close]
      · show (_, dispatchClicks c 1) = _
        simp [dispatchClicks, hcf, call]
        rfl
      · rw [elapsed16_eq_sub _ _ (Nat.zero_le _) (by unfold U32; omega) (by unfold U16; omega), hC]
        omega
    simp only [List.length_map] at r1
    simp only [run_cons, run_append, run_nil, t0, t1, r1, t2]

/-- Witness of C5, amended: the recognizer after press at 0 and release at 60,
polled released at 401. -/
theorem click_gap_from_press_start_witness :
    (setFsm (fresh 0 0) DETECT_CLICK 0 60 0)._state = DETECT_CLICK
    ∧ ((tick (setFsm (fresh 0 0) DETECT_CLICK 0 60 0) false 401).1._state
          = WAIT_FOR_INITIAL_PRESS
        ↔ (setFsm (fresh 0 0) DETECT_CLICK 0 60 0)._clickTicks
            < elapsed16 (401 % U32) (setFsm (fresh 0 0) DETECT_CLICK 0 60 0)._startTime) :=
  ⟨rfl, (click_gap_from_press_start (setFsm (fresh 0 0) DETECT_CLICK 0 60 0) false 401 rfl).1⟩

theorem elapsed16_le_subU32 (r s : Nat) : elapsed16 (r % U32) (s % U32) ≤ subU32 r s := by
  simp only [elapsed16, subU32, U32, U16]
  omega

/-- One bounce from the idle state: a pressed poll at `s` and a released poll
at `r` less than the debounce time later fire nothing and end idle. -/
theorem run_bounce_pair (b : OneButton) (s r : Nat) (hidle : b._state = WAIT_FOR_INITIAL_PRESS)
    (hshort : subU32 r s < b._debounceTicks) :
    tick b true s
        = ({ b with _state := DEBOUNCE_OR_LONG_PRESS, _startTime := s % U32, _nClicks := 0 }, [])
    ∧ tick { b with _state := DEBOUNCE_OR_LONG_PRESS, _startTime := s % U32, _nClicks := 0 } false r
        = ({ b with _state := WAIT_FOR_INITIAL_PRESS, _startTime := s % U32, _nClicks := 0 }, []) := by
  have h := elapsed16_le_subU32 r s
  have h2 : elapsed16 (r % U32) (s % U32) < b._debounceTicks := by omega
  constructor
  · simp [tick, hidle]
  · simp [tick, h2]

theorem run_bounces (pairs : List (Nat × Nat)) : ∀ b : OneButton,
    b._state = WAIT_FOR_INITIAL_PRESS →
    (∀ q ∈ pairs, subU32 q.2 q.1 < b._debounceTicks) →
    (run b (bouncePolls pairs)).2 = List.replicate (2 * pairs.length) []
    ∧ (run b (bouncePolls pairs)).1._state = WAIT_FOR_INITIAL_PRESS := by
  induction pairs with
  | nil => intro b hidle _; exact ⟨rfl, hidle⟩
  | cons q qs ih =>
    intro b hidle hshort
    obtain ⟨h1, h2⟩ := run_bounce_pair b q.1 q.2 hidle (hshort q (List.mem_cons_self _ _))
    have ih2 := ih { b with _state := WAIT_FOR_INITIAL_PRESS, _startTime := q.1 % U32, _nClicks := 0 }
      rfl (fun p hp => hshort p (List.mem_cons_of_mem _ hp))
    have hl : bouncePolls (q :: qs) = (true, q.1) :: (false, q.2) :: bouncePolls qs := by
      simp [bouncePolls]
    rw [hl]
    simp only [run_cons, h1, h2]
    refine ⟨?_, ih2.2⟩
    rw [ih2.1]
    simp [Nat.mul_add, List.replicate_succ]

/-- C6 (bounce rejection).  For every recognizer in the idle state and every
sequence of pairs of a pressed poll at `s` and a released poll at `r` with
`(r - s) mod 2^32` below the debounce threshold: no poll of the sequence fires
a callback, and the recognizer is idle after every pair.  The timestamps need
not be non-decreasing for this to hold. -/
theorem bounce_rejection (b : OneButton) (pairs : List (Nat × Nat))
    (hidle : b._state = WAIT_FOR_INITIAL_PRESS)
    (hshort : ∀ q ∈ pairs, subU32 q.2 q.1 < b._debounceTicks) :
    (run b (bouncePolls pairs)).2 = List.replicate (2 * pairs.length) []
    ∧ ∀ k, isIdle (run b (bouncePolls (pairs.take k))).1 = true := by
  refine ⟨(run_bounces pairs b hidle hshort).1, ?_⟩
  intro k
  have h := (run_bounces (pairs.take k) b hidle
    (fun q hq => hshort q (List.mem_of_mem_take hq))).2
  simp [isIdle, h]

/-- Witness of C6: three bounces of 10, 49 and 0 ms on a fresh recognizer. -/
theorem bounce_rejection_witness :
    (run (fresh 0 0) (bouncePolls [(5, 15), (20, 69), (70, 70)])).2 = List.replicate (2 * 3) []
    ∧ ∀ k, isIdle (run (fresh 0 0) (bouncePolls ([(5, 15), (20, 69), (70, 70)].take k))).1 = true :=
  bounce_rejection (fresh 0 0) [(5, 15), (20, 69), (70, 70)] rfl (by decide)

/-- The callback slots and thresholds are not written by `tick`. -/
theorem tick_frame (b : OneButton) (lvl : Bool) (t : Nat) :
    (tick b lvl t).1._clickFunc = b._clickFunc
    ∧ (tick b lvl t).1._doubleClickFunc = b._doubleClickFunc
    ∧ (tick b lvl t).1._multiClickFunc = b._multiClickFunc
    ∧ (tick b lvl t).1._pressStartFunc = b._pressStartFunc
    ∧ (tick b lvl t).1._longPressStartFunc = b._longPressStartFunc
    ∧ (tick b lvl t).1._longPressStopFunc = b._longPressStopFunc
    ∧ (tick b lvl t).1._duringLongPressFunc = b._duringLongPressFunc
    ∧ (tick b lvl t).1._debounceTicks = b._debounceTicks
    ∧ (tick b lvl t).1._clickTicks = b._clickTicks
    ∧ (tick b lvl t).1._pressTicks = b._pressTicks := by
  unfold tick
  simp only []
  split <;> split_ifs <;> simp

theorem dispatchClicks_attached (b : OneButton) (n : Nat)
    (hc : b._clickFunc = true) (hd : b._doubleClickFunc = true) (hm : b._multiClickFunc = true) :
    ∃ e, isClickEvent e = true ∧ dispatchClicks b n = [e] := by
  unfold dispatchClicks
  split
  · exact ⟨Event.click, rfl, by simp [call, hc]⟩
  · exact ⟨Event.doubleClick, rfl, by simp [call, hd]⟩
  · exact ⟨Event.multiClick, rfl, by simp [call, hm]⟩

theorem alternates_tick (b : OneButton) (lvl : Bool) (t : Nat) (rest : List Event)
    (hp : b._pressStartFunc = true)
    (hc : b._clickFunc = true) (hd : b._doubleClickFunc = true) (hm : b._multiClickFunc = true)
    (h : alternates (inSequence (tick b lvl t).1) rest = true) :
    alternates (inSequence b) ((tick b lvl t).2 ++ rest) = true := by
  obtain ⟨e, he, hdis⟩ := dispatchClicks_attached b ((b._nClicks + 1) % U8) hc hd hm
  have hne : e ≠ Event.pressStart := by
    intro h0; rw [h0] at he; simp [isClickEvent] at he
  have f1 : isClickEvent Event.longPressStart = false := rfl
  have f2 : isClickEvent Event.longPressStop = false := rfl
  have f3 : isClickEvent Event.duringLongPress = false := rfl
  revert h
  unfold tick
  simp only []
  split <;> rename_i hs <;> split_ifs <;>
    simp [inSequence, hs, call, hp, alternates, hdis, he, hne] <;>
    split_ifs <;> simp [alternates, f1, f2, f3]


theorem run_frame (l : List Poll) : ∀ b : OneButton,
    (run b l).1._clickFunc = b._clickFunc
    ∧ (run b l).1._doubleClickFunc = b._doubleClickFunc
    ∧ (run b l).1._multiClickFunc = b._multiClickFunc
    ∧ (run b l).1._pressStartFunc = b._pressStartFunc
    ∧ (run b l).1._longPressStartFunc = b._longPressStartFunc
    ∧ (run b l).1._longPressStopFunc = b._longPressStopFunc
    ∧ (run b l).1._duringLongPressFunc = b._duringLongPressFunc
    ∧ (run b l).1._debounceTicks = b._debounceTicks
    ∧ (run b l).1._clickTicks = b._clickTicks
    ∧ (run b l).1._pressTicks = b._pressTicks := by
  induction l with
  | nil => intro b; simp [run_nil]
  | cons p ps ih =>
    intro b
    obtain ⟨h1, h2, h3, h4, h5, h6, h7, h8, h9, h10⟩ := ih (tick b p.1 p.2).1
    obtain ⟨g1, g2, g3, g4, g5, g6, g7, g8, g9, g10⟩ := tick_frame b p.1 p.2
    simp only [run_cons]
    exact ⟨h1.trans g1, h2.trans g2, h3.trans g3, h4.trans g4, h5.trans g5, h6.trans g6,
      h7.trans g7, h8.trans g8, h9.trans g9, h10.trans g10⟩

theorem fired_cons (b : OneButton) (p : Poll) (ps : List Poll) :
    fired b (p :: ps) = (tick b p.1 p.2).2 ++ fired (tick b p.1 p.2).1 ps := by
  simp [fired, run_cons]

theorem fired_append (l₁ l₂ : List Poll) (b : OneButton) :
    fired b (l₁ ++ l₂) = fired b l₁ ++ fired (run b l₁).1 l₂ := by
  simp [fired, run_append]

theorem alternates_run (l : List Poll) : ∀ b : OneButton,
    b._pressStartFunc = true → b._clickFunc = true → b._doubleClickFunc = true →
    b._multiClickFunc = true →
    alternates (inSequence b) (fired b l) = true := by
  induction l with
  | nil => intro b _ _ _ _; simp [fired, run_nil, alternates]
  | cons p ps ih =>
    intro b hp hc hd hm
    obtain ⟨g1, g2, g3, g4, _⟩ := tick_frame b p.1 p.2
    rw [fired_cons]
    exact alternates_tick b p.1 p.2 _ hp hc hd hm
      (ih _ (g4.trans hp) (g1.trans hc) (g2.trans hd) (g3.trans hm))

/-- A single call of `tick` fires at most one click callback. -/
theorem tick_clicks_le_one (b : OneButton) (lvl : Bool) (t : Nat) :
    ((tick b lvl t).2.filter isClickEvent).length ≤ 1 := by
  unfold tick
  simp only []
  split <;> split_ifs <;> simp [call, dispatchClicks] <;>
    first
    | (split_ifs <;> simp [isClickEvent])
    | (split <;> split_ifs <;> simp [isClickEvent])

theorem run_clicks_le_one (l : List Poll) : ∀ b : OneButton,
    ∀ evs ∈ (run b l).2, (evs.filter isClickEvent).length ≤ 1 := by
  induction l with
  | nil => intro b evs h; simp [run_nil] at h
  | cons p ps ih =>
    intro b evs h
    rw [run_cons] at h
    rcases List.mem_cons.mp h with h | h
    · rw [h]; exact tick_clicks_le_one b p.1 p.2
    · exact ih _ evs h

/-- Leaving DETECT_CLICK for the idle state is the dispatch of the click
sequence. -/
theorem tick_detect_idle (b : OneButton) (lvl : Bool) (t : Nat)
    (hs : b._state = DETECT_CLICK) (hi : (tick b lvl t).1._state = WAIT_FOR_INITIAL_PRESS) :
    (tick b lvl t).2 = dispatchClicks b ((b._nClicks + 1) % U8)
    ∧ (tick b lvl t).1._nClicks = (b._nClicks + 1) % U8 := by
  revert hi
  unfold tick
  simp only [hs]
  split_ifs <;> simp [hs]

theorem configured_attached (startTime0 stopTime0 d c p : Nat) :
    (configured startTime0 stopTime0 d c p)._clickFunc = true
    ∧ (configured startTime0 stopTime0 d c p)._doubleClickFunc = true
    ∧ (configured startTime0 stopTime0 d c p)._multiClickFunc = true
    ∧ (configured startTime0 stopTime0 d c p)._pressStartFunc = true
    ∧ (configured startTime0 stopTime0 d c p)._longPressStartFunc = true
    ∧ (configured startTime0 stopTime0 d c p)._longPressStopFunc = true
    ∧ (configured startTime0 stopTime0 d c p)._duringLongPressFunc = true
    ∧ (configured startTime0 stopTime0 d c p)._state = WAIT_FOR_INITIAL_PRESS :=
  ⟨rfl, rfl, rfl, rfl, rfl, rfl, rfl, rfl⟩

/-- C7 (one click dispatch per click sequence).  For every finite sequence of
polls, with any levels and timestamps, applied to a freshly constructed
recognizer with all callbacks attached and any thresholds: every poll fires at
most one of single-click, double-click and multi-click; over the whole run
press-start calls and click dispatches alternate strictly, starting with
press-start; and every poll that takes the FSM from DETECT_CLICK to the idle
state fires exactly one callback, which is one of the three click callbacks. -/
theorem one_dispatch_per_sequence (startTime0 stopTime0 debounce click press : Nat)
    (l : List Poll) :
    (∀ evs ∈ (run (configured startTime0 stopTime0 debounce click press) l).2,
        (evs.filter isClickEvent).length ≤ 1)
    ∧ alternates false (fired (configured startTime0 stopTime0 debounce click press) l) = true
    ∧ (∀ pre q post, l = pre ++ q :: post →
        (run (configured startTime0 stopTime0 debounce click press) pre).1._state
          = DETECT_CLICK →
        (tick (run (configured startTime0 stopTime0 debounce click press) pre).1 q.1 q.2).1._state
          = WAIT_FOR_INITIAL_PRESS →
        ∃ e, isClickEvent e = true ∧
          (tick (run (configured startTime0 stopTime0 debounce click press) pre).1 q.1 q.2).2
            = [e]) := by
  obtain ⟨hc, hd, hm, hp, _, _, _, _⟩ :=
    configured_attached startTime0 stopTime0 debounce click press
  refine ⟨run_clicks_le_one l _, ?_, ?_⟩
  · exact alternates_run l _ hp hc hd hm
  · intro pre q post _ hs hi
    obtain ⟨g1, g2, g3, _⟩ := run_frame pre (configured startTime0 stopTime0 debounce click press)
    rw [(tick_detect_idle _ q.1 q.2 hs hi).1]
    exact dispatchClicks_attached _ _ (g1.trans hc) (g2.trans hd) (g3.trans hm)

/-- Auxiliary form of `isLongPressed` by cases on the FSM state. -/
theorem isLongPressed_eq (b : OneButton) :
    isLongPressed b = (match b._state with | LONG_PRESS => true | _ => false) := by
  unfold isLongPressed
  cases b._state <;> rfl

theorem longPressPaired_tick (b : OneButton) (lvl : Bool) (t : Nat) (rest : List Event)
    (hs : b._longPressStartFunc = true) (hp : b._longPressStopFunc = true)
    (h : longPressPaired (isLongPressed (tick b lvl t).1) rest = true) :
    longPressPaired (isLongPressed b) ((tick b lvl t).2 ++ rest) = true := by
  have hdis : ∀ n b1, longPressPaired b1 (dispatchClicks b n ++ rest) = longPressPaired b1 rest := by
    intro n b1
    unfold dispatchClicks
    split <;> simp only [call] <;> split_ifs <;> simp [longPressPaired]
  revert h
  cases hst : b._state <;> simp only [tick, hst] <;> split_ifs <;>
    simp [isLongPressed_eq, hst, call, hs, hp, longPressPaired, hdis] <;>
    split_ifs <;> simp [longPressPaired]

theorem longPressPaired_run (l : List Poll) : ∀ b : OneButton,
    b._longPressStartFunc = true → b._longPressStopFunc = true →
    longPressPaired (isLongPressed b) (fired b l) = true := by
  induction l with
  | nil => intro b _ _; simp [fired, run_nil, longPressPaired]
  | cons p ps ih =>
    intro b hs hp
    obtain ⟨_, _, _, _, g5, g6, _⟩ := tick_frame b p.1 p.2
    rw [fired_cons]
    exact longPressPaired_tick b p.1 p.2 _ hs hp (ih _ (g5.trans hs) (g6.trans hp))

theorem lastLongPressEvent_append_one (acc : List Event) (e : Event)
    (h : isLongPressEvent e = true) : lastLongPressEvent (acc ++ [e]) = some e := by
  simp [lastLongPressEvent, List.filter_append, List.filter_cons, h]

theorem lastLongPressEvent_append_other (acc evs : List Event)
    (h : ∀ e ∈ evs, isLongPressEvent e = false) :
    lastLongPressEvent (acc ++ evs) = lastLongPressEvent acc := by
  have : evs.filter isLongPressEvent = [] := by
    rw [List.filter_eq_nil_iff]
    intro e he
    simp [h e he]
  simp [lastLongPressEvent, List.filter_append, this]

theorem longPressOpen_tick (b : OneButton) (lvl : Bool) (t : Nat) (acc : List Event)
    (hs : b._longPressStartFunc = true) (hp : b._longPressStopFunc = true)
    (h : isLongPressed b = true ↔ LongPressOpen acc) :
    isLongPressed (tick b lvl t).1 = true ↔ LongPressOpen (acc ++ (tick b lvl t).2) := by
  have hdis : ∀ n, lastLongPressEvent (acc ++ dispatchClicks b n) = lastLongPressEvent acc := by
    intro n
    apply lastLongPressEvent_append_other
    intro e he
    unfold dispatchClicks at he
    split at he <;> simp only [call] at he <;> split_ifs at he <;> simp at he <;> subst he <;> rfl
  have hps : lastLongPressEvent (acc ++ [Event.pressStart]) = lastLongPressEvent acc :=
    lastLongPressEvent_append_other acc _ (by intro e he; simp at he; subst he; rfl)
  have h1 := lastLongPressEvent_append_one acc Event.longPressStart rfl
  have h2 := lastLongPressEvent_append_one acc Event.longPressStop rfl
  have h3 := lastLongPressEvent_append_one acc Event.duringLongPress rfl
  revert h
  unfold LongPressOpen
  cases hst : b._state <;> simp only [tick, hst] <;> split_ifs <;>
    simp [isLongPressed_eq, hst, call, hs, hp, hdis, h1, h2, h3] <;>
    split_ifs <;> simp [hps, h3] <;> tauto

theorem longPressOpen_run (l : List Poll) : ∀ (b : OneButton) (acc : List Event),
    b._longPressStartFunc = true → b._longPressStopFunc = true →
    (isLongPressed b = true ↔ LongPressOpen acc) →
    (isLongPressed (run b l).1 = true ↔ LongPressOpen (acc ++ fired b l)) := by
  induction l with
  | nil => intro b acc _ _ h; simpa [fired, run_nil] using h
  | cons p ps ih =>
    intro b acc hs hp h
    obtain ⟨_, _, _, _, g5, g6, _⟩ := tick_frame b p.1 p.2
    have := ih (tick b p.1 p.2).1 (acc ++ (tick b p.1 p.2).2) (g5.trans hs) (g6.trans hp)
      (longPressOpen_tick b p.1 p.2 acc hs hp h)
    rw [fired_cons, ← List.append_assoc]
    simpa [run_cons] using this

/-- C8 (long-press events are properly paired).  For every finite sequence of
polls applied to a freshly constructed recognizer with all callbacks attached
and any thresholds: over the whole run long-press-start and long-press-stop
alternate strictly, starting with long-press-start, and during-long-press
fires only after a long-press-start whose long-press-stop has not fired yet;
and after every poll `isLongPressed()` holds exactly when the last long-press
event fired so far is a long-press-start or a during-long-press. -/
theorem long_press_events_paired (startTime0 stopTime0 debounce click press : Nat)
    (l : List Poll) :
    longPressPaired false (fired (configured startTime0 stopTime0 debounce click press) l) = true
    ∧ ∀ k, (isLongPressed (run (configured startTime0 stopTime0 debounce click press)
              (l.take k)).1 = true
            ↔ (lastLongPressEvent
                  (fired (configured startTime0 stopTime0 debounce click press) (l.take k))
                = some Event.longPressStart
              ∨ lastLongPressEvent
                  (fired (configured startTime0 stopTime0 debounce click press) (l.take k))
                = some Event.duringLongPress)) := by
  obtain ⟨_, _, _, _, hs, hp, _, _⟩ :=
    configured_attached startTime0 stopTime0 debounce click press
  refine ⟨longPressPaired_run l _ hs hp, ?_⟩
  intro k
  have h := longPressOpen_run (l.take k) (configured startTime0 stopTime0 debounce click press) []
    hs hp (by
      constructor
      · intro h0; exact absurd h0 (by simp [isLongPressed_eq, configured_attached])
      · intro h0; rcases h0 with h0 | h0 <;> simp [lastLongPressEvent] at h0)
  simpa [LongPressOpen] using h

theorem sequenceInv_tick (b : OneButton) (p : Poll) (c : Nat) (h : SequenceInv b c)
    (hbusy : (tick b p.1 p.2).1._state ≠ WAIT_FOR_INITIAL_PRESS) :
    SequenceInv (tick b p.1 p.2).1 (c + if entersDetect b p then 1 else 0) := by
  revert h hbusy
  unfold SequenceInv entersDetect
  cases hst : b._state <;> simp only [tick, hst] <;> split_ifs <;> simp_all [U8]

theorem sequenceInv_run (l : List Poll) : ∀ (b : OneButton) (c : Nat), SequenceInv b c →
    (∀ s ∈ states b l, s._state ≠ WAIT_FOR_INITIAL_PRESS) →
    SequenceInv (run b l).1 (c + acceptedReleases b l) := by
  induction l with
  | nil => intro b c h _; simpa [run_nil, acceptedReleases] using h
  | cons p ps ih =>
    intro b c h hbusy
    rw [states_cons] at hbusy
    have h1 := sequenceInv_tick b p c h (hbusy _ (List.mem_cons_self _ _))
    have h2 := ih _ _ h1 (fun s hs => hbusy s (List.mem_cons_of_mem _ hs))
    simpa [run_cons, acceptedReleases, Nat.add_assoc] using h2

/-- A click sequence that starts in the idle state, stays open during the
polls `l` and is closed by the poll `q`: the callbacks fired by `q` are those
of the `switch` on the number of accepted releases modulo 256, which is also
the new value of `_nClicks`. -/
theorem sequence_close (b : OneButton) (l : List Poll) (q : Poll)
    (hidle : b._state = WAIT_FOR_INITIAL_PRESS)
    (hbusy : ∀ s ∈ states b l, s._state ≠ WAIT_FOR_INITIAL_PRESS)
    (hdet : (run b l).1._state = DETECT_CLICK)
    (hclose : (tick (run b l).1 q.1 q.2).1._state = WAIT_FOR_INITIAL_PRESS) :
    1 ≤ acceptedReleases b l
    ∧ (tick (run b l).1 q.1 q.2).2
        = dispatchClicks (run b l).1 (acceptedReleases b l % U8)
    ∧ (tick (run b l).1 q.1 q.2).1._nClicks = acceptedReleases b l % U8 := by
  have hinv : SequenceInv (run b l).1 (acceptedReleases b l) := by
    cases l with
    | nil => rw [run_nil, hidle] at hdet; exact absurd hdet (by decide)
    | cons p ps =>
      rw [states_cons] at hbusy
      have hb1 := hbusy _ (List.mem_cons_self _ _)
      have h0 : SequenceInv (tick b p.1 p.2).1 0 ∧ entersDetect b p = false := by
        revert hb1
        unfold SequenceInv entersDetect
        simp only [tick, hidle]
        split_ifs <;> simp [hidle]
      have h2 := sequenceInv_run ps _ 0 h0.1 (fun s hs => hbusy s (List.mem_cons_of_mem _ hs))
      simpa [run_cons, acceptedReleases, h0.2] using h2
  unfold SequenceInv at hinv
  rw [hdet] at hinv
  obtain ⟨hk, hn⟩ := hinv
  obtain ⟨h1, h2⟩ := tick_detect_idle _ q.1 q.2 hdet hclose
  have harith : ((run b l).1._nClicks + 1) % U8 = acceptedReleases b l % U8 := by
    rw [hn]; unfold U8; omega
  rw [harith] at h1 h2
  exact ⟨hk, h1, h2⟩

theorem dispatchClicks_small (b : OneButton) (k : Nat) (hk : 1 ≤ k)
    (hc : b._clickFunc = true) (hd : b._doubleClickFunc = true) (hm : b._multiClickFunc = true) :
    dispatchClicks b k = [expectedClick k] := by
  unfold dispatchClicks expectedClick
  split
  · simp [call, hc]
  · simp [call, hd]
  · rename_i h1 h2
    have : k ≠ 1 := fun h => h1 h
    have : k ≠ 2 := fun h => h2 h
    simp [call, hm, *]

/-- C9, amended.  A click sequence starts in the idle state, stays open (never
idle) during the polls `l`, contains `k` accepted releases (polls that move
the FSM into DETECT_CLICK from DEBOUNCE_OR_LONG_PRESS or from COUNT_CLICKS)
and is closed by the poll `q`, which takes DETECT_CLICK to the idle state.
When the three click callbacks are attached and `k` is at most 255, then `k`
is at least 1, the poll `q` fires exactly one callback, which is single-click
for k = 1, double-click for k = 2 and multi-click for k from 3 to 255, and
`getNumberClicks()` afterwards is `k`. -/
theorem dispatch_by_click_count (b : OneButton) (l : List Poll) (q : Poll)
    (hc : b._clickFunc = true) (hd : b._doubleClickFunc = true) (hm : b._multiClickFunc = true)
    (hidle : b._state = WAIT_FOR_INITIAL_PRESS)
    (hbusy : ∀ s ∈ states b l, s._state ≠ WAIT_FOR_INITIAL_PRESS)
    (hdet : (run b l).1._state = DETECT_CLICK)
    (hclose : (tick (run b l).1 q.1 q.2).1._state = WAIT_FOR_INITIAL_PRESS)
    (hk : acceptedReleases b l ≤ 255) :
    1 ≤ acceptedReleases b l
    ∧ (tick (run b l).1 q.1 q.2).2 = [expectedClick (acceptedReleases b l)]
    ∧ getNumberClicks (tick (run b l).1 q.1 q.2).1 = acceptedReleases b l := by
  obtain ⟨h1, h2, h3⟩ := sequence_close b l q hidle hbusy hdet hclose
  obtain ⟨g1, g2, g3, _⟩ := run_frame l b
  have hmod : acceptedReleases b l % U8 = acceptedReleases b l := by
    unfold U8; omega
  rw [hmod] at h2 h3
  refine ⟨h1, ?_, h3⟩
  rw [h2]
  exact dispatchClicks_small _ _ h1 (g1.trans hc) (g2.trans hd) (g3.trans hm)

set_option maxRecDepth 1000000 in
/-- C9, counterexample.  With the default thresholds, 257 press/release cycles
(press at 150 i, release at 150 i + 60) keep the click sequence open and are
257 accepted releases; the released poll at 38960 closes the sequence, fires
single-click instead of multi-click, and `getNumberClicks()` is 1, not 257:
`_nClicks` is a `uint8_t` and wraps at 256. -/
theorem dispatch_by_click_count_refuted :
    (fresh 0 0)._state = WAIT_FOR_INITIAL_PRESS
    ∧ (∀ s ∈ states (fresh 0 0) (manyClicks 257), s._state ≠ WAIT_FOR_INITIAL_PRESS)
    ∧ (run (fresh 0 0) (manyClicks 257)).1._state = DETECT_CLICK
    ∧ acceptedReleases (fresh 0 0) (manyClicks 257) = 257
    ∧ (tick (run (fresh 0 0) (manyClicks 257)).1 false 38960).1._state = WAIT_FOR_INITIAL_PRESS
    ∧ (tick (run (fresh 0 0) (manyClicks 257)).1 false 38960).2 = [Event.click]
    ∧ getNumberClicks (tick (run (fresh 0 0) (manyClicks 257)).1 false 38960).1 = 1 := by
  decide

/-- Witness of C9, amended: two press/release cycles closed at 610. -/
theorem dispatch_by_click_count_witness :
    1 ≤ acceptedReleases (fresh 0 0) [(true, 0), (false, 60), (true, 150), (false, 210)]
    ∧ (tick (run (fresh 0 0) [(true, 0), (false, 60), (true, 150), (false, 210)]).1
          false 610).2
        = [expectedClick
            (acceptedReleases (fresh 0 0) [(true, 0), (false, 60), (true, 150), (false, 210)])]
    ∧ getNumberClicks
          (tick (run (fresh 0 0) [(true, 0), (false, 60), (true, 150), (false, 210)]).1
            false 610).1
        = acceptedReleases (fresh 0 0) [(true, 0), (false, 60), (true, 150), (false, 210)] :=
  dispatch_by_click_count (fresh 0 0) [(true, 0), (false, 60), (true, 150), (false, 210)]
    (false, 610) rfl rfl rfl rfl (by decide) (by decide) (by decide) (by decide)

/-- Witness of C1 on `singleClickSample`. -/
theorem single_click_schedule_witness :
    fired (fresh 7 9) singleClickSample = [Event.pressStart, Event.click]
    ∧ (run (fresh 7 9) singleClickSample).2[singleClickSample.findIdx (fun p => p.2 == 60)]?
        = some [Event.pressStart]
    ∧ isIdle (run (fresh 7 9) singleClickSample).1 = true
    ∧ getNumberClicks (run (fresh 7 9) singleClickSample).1 = 1 :=
  single_click_schedule 7 9 singleClickSample (by decide) (by decide) (by decide) (by decide)
    (by decide)

/-- Witness of C2 on `doubleClickSample`. -/
theorem double_click_schedule_witness :
    fired (fresh 7 9) doubleClickSample = [Event.pressStart, Event.doubleClick]
    ∧ isIdle (run (fresh 7 9) doubleClickSample).1 = true
    ∧ getNumberClicks (run (fresh 7 9) doubleClickSample).1 = 2 :=
  double_click_schedule 7 9 doubleClickSample (by decide) (by decide) (by decide) (by decide)
    (by decide) (by decide) (by decide)

/-- Witness of C4 on `multiClickSample`. -/
theorem multi_click_schedule_witness :
    fired (fresh 7 9) multiClickSample = [Event.pressStart, Event.multiClick]
    ∧ isIdle (run (fresh 7 9) multiClickSample).1 = true
    ∧ getNumberClicks (run (fresh 7 9) multiClickSample).1 = 3 :=
  multi_click_schedule 7 9 multiClickSample (by decide) (by decide) (by decide) (by decide)
    (by decide) (by decide) (by decide) (by decide) (by decide)

/-- Witness of C3: pressed polls at 0, 500, 800, 801, 900 and 70000, released
at 70001. -/
theorem long_press_run_witness :
    isIdle (run (fresh 7 9)
      ([0, 500, 800, 801, 900, 70000].map (fun t => (true, t)) ++ [(false, 70001)])).1 = true :=
  (long_press_run 7 9 [0, 500, 800, 801, 900, 70000] 70001 801 rfl (by decide) (by decide)).2.2

/-- C10 (reset discards the gesture silently).  From every recognizer state,
`reset()` fires no callback, sets the FSM state to idle and `_startTime` and
`_stopTime` to 0, and leaves the three thresholds and the seven callback slots
unchanged; and after `reset()` every sequence of released polls, at any
timestamps, fires no callback and leaves the recognizer as `reset()` left it,
idle. -/
theorem reset_discards_silently (b : OneButton) (ts : List Nat) :
    (reset b).2 = []
    ∧ (reset b).1._state = WAIT_FOR_INITIAL_PRESS
    ∧ (reset b).1._startTime = 0
    ∧ (reset b).1._stopTime = 0
    ∧ (reset b).1._debounceTicks = b._debounceTicks
    ∧ (reset b).1._clickTicks = b._clickTicks
    ∧ (reset b).1._pressTicks = b._pressTicks
    ∧ (reset b).1._clickFunc = b._clickFunc
    ∧ (reset b).1._doubleClickFunc = b._doubleClickFunc
    ∧ (reset b).1._multiClickFunc = b._multiClickFunc
    ∧ (reset b).1._pressStartFunc = b._pressStartFunc
    ∧ (reset b).1._longPressStartFunc = b._longPressStartFunc
    ∧ (reset b).1._longPressStopFunc = b._longPressStopFunc
    ∧ (reset b).1._duringLongPressFunc = b._duringLongPressFunc
    ∧ run (reset b).1 (ts.map (fun t => (false, t)))
        = ((reset b).1, List.replicate ts.length [])
    ∧ isIdle (run (reset b).1 (ts.map (fun t => (false, t)))).1 = true := by
  have hrun : run (reset b).1 (ts.map (fun t => ((false, t) : Poll)))
      = ((reset b).1, List.replicate ts.length []) := by
    have h := run_stay (reset b).1 (ts.map (fun t => ((false, t) : Poll))) (by
      intro p hp
      obtain ⟨t, _, rfl⟩ := List.mem_map.mp hp
      simp [tick, reset])
    simpa using h
  refine ⟨rfl, rfl, rfl, rfl, rfl, rfl, rfl, rfl, rfl, rfl, rfl, rfl, rfl, rfl, hrun, ?_⟩
  rw [hrun]
  rfl

/-! ## Elapsed times: 32-bit subtraction, 16-bit comparison -/

theorem elapsed16_mod (n s : Nat) : elapsed16 (n % U32) s = subU32 n s % U16 := by
  simp only [elapsed16, subU32, U32, U16]
  omega

theorem elapsed16_of_small (n s : Nat) (h : subU32 n s < 65536) :
    elapsed16 (n % U32) s = subU32 n s := by
  rw [elapsed16_mod]
  exact Nat.mod_eq_of_lt h

/-- The decisions of `tick` use the clock only through the two 16-bit
durations `waitTime` and `sinceStop`. -/
theorem tick_depends_on_elapsed (b : OneButton) (lvl : Bool) (m₁ m₂ : Nat)
    (hw : waitTime b m₁ = waitTime b m₂) (hp : sinceStop b m₁ = sinceStop b m₂) :
    (tick b lvl m₁).2 = (tick b lvl m₂).2
    ∧ (tick b lvl m₁).1._state = (tick b lvl m₂).1._state
    ∧ (tick b lvl m₁).1._nClicks = (tick b lvl m₂).1._nClicks := by
  unfold waitTime at hw
  unfold sinceStop at hp
  cases hst : b._state <;> simp only [tick, hst, hw, hp] <;> split_ifs <;> simp

/-- C11, counterexample.  The duration compared with a threshold is not
`(now - reference) mod 2^32`.  With the default thresholds, after a press at 0
the recognizer is in DEBOUNCE_OR_LONG_PRESS with `_startTime` 0; at a pressed
poll at 66000 the 32-bit difference is 66000, above the long-press threshold
800, but `waitTime` is 464 and the poll changes nothing and fires nothing,
while a pressed poll at 801 fires long-press-start. -/
theorem elapsed_32bit_refuted :
    (run (fresh 0 0) [(true, 0)]).1._state = DEBOUNCE_OR_LONG_PRESS
    ∧ (run (fresh 0 0) [(true, 0)]).1._startTime = 0
    ∧ (run (fresh 0 0) [(true, 0)]).1._pressTicks = 800
    ∧ subU32 66000 (run (fresh 0 0) [(true, 0)]).1._startTime = 66000
    ∧ waitTime (run (fresh 0 0) [(true, 0)]).1 66000 = 464
    ∧ tick (run (fresh 0 0) [(true, 0)]).1 true 66000 = ((run (fresh 0 0) [(true, 0)]).1, [])
    ∧ (tick (run (fresh 0 0) [(true, 0)]).1 true 801).2 = [Event.longPressStart] := by
  decide

/-- C11, amended.  Elapsed time is the 32-bit unsigned difference truncated to
16 bits.  For every recognizer and every poll timestamp, the two durations a
poll compares with thresholds are `((now - _startTime) mod 2^32) mod 2^16` and
`((now - _stopTime) mod 2^32) mod 2^16`, and the callbacks fired, the next FSM
state and the next click count depend on the clock through these two values
only; each duration equals the 32-bit difference whenever that is below 65536,
hence is the true elapsed time whenever fewer than 65536 ms have passed since
the reference, also when the 32-bit clock has wrapped once in between. -/
theorem elapsed_16bit_of_32bit_difference (b : OneButton) (lvl : Bool) (millis : Nat) :
    waitTime b millis = subU32 millis b._startTime % 65536
    ∧ sinceStop b millis = subU32 millis b._stopTime % 65536
    ∧ (∀ m₂, waitTime b millis = waitTime b m₂ → sinceStop b millis = sinceStop b m₂ →
        (tick b lvl millis).2 = (tick b lvl m₂).2
        ∧ (tick b lvl millis).1._state = (tick b lvl m₂).1._state
        ∧ (tick b lvl millis).1._nClicks = (tick b lvl m₂).1._nClicks)
    ∧ (subU32 millis b._startTime < 65536 → waitTime b millis = subU32 millis b._startTime)
    ∧ (subU32 millis b._stopTime < 65536 → sinceStop b millis = subU32 millis b._stopTime)
    ∧ (∀ ref now, ref ≤ now → now < 4294967296 → now - ref < 65536 →
        elapsed16 (now % U32) ref = now - ref)
    ∧ (∀ ref now, now < ref → ref < 4294967296 → now + 4294967296 - ref < 65536 →
        elapsed16 (now % U32) ref = now + 4294967296 - ref) := by
  refine ⟨elapsed16_mod _ _, elapsed16_mod _ _, ?_, ?_, ?_, ?_, ?_⟩
  · intro m₂ hw hp
    exact tick_depends_on_elapsed b lvl millis m₂ hw hp
  · exact elapsed16_of_small _ _
  · exact elapsed16_of_small _ _
  · intro ref now h1 h2 h3
    simp only [elapsed16, subU32, U32, U16]
    omega
  · intro ref now h1 h2 h3
    simp only [elapsed16, subU32, U32, U16]
    omega

/-- C17 (the 16-bit elapsed time is exact for short durations, also across a
clock wrap).  For every 32-bit `_startTime` s and every duration d below
65536, a poll at `(s + d) mod 2^32` computes `waitTime` equal to d, whether or
not the clock wrapped between the press and the poll; the same holds for
`(uint16_t)(now - _stopTime)`.  The poll acts on that value: from
DEBOUNCE_OR_LONG_PRESS a pressed poll enters LONG_PRESS exactly when d exceeds
`_pressTicks`, from DETECT_CLICK a released poll closes the sequence exactly
when d exceeds `_clickTicks`, and a pressed poll d after the release that does
not close the sequence enters COUNT_CLICKS exactly when d exceeds
`_debounceTicks`. -/
theorem elapsed16_exact_across_wrap (b : OneButton) (d : Nat) (hd : d < 65536)
    (hs : b._startTime < 4294967296) (hp : b._stopTime < 4294967296) :
    waitTime b ((b._startTime + d) % 4294967296) = d
    ∧ sinceStop b ((b._stopTime + d) % 4294967296) = d
    ∧ (b._state = DEBOUNCE_OR_LONG_PRESS →
        ((tick b true ((b._startTime + d) % 4294967296)).1._state = LONG_PRESS
          ↔ b._pressTicks < d))
    ∧ (b._state = DETECT_CLICK →
        ((tick b false ((b._startTime + d) % 4294967296)).1._state = WAIT_FOR_INITIAL_PRESS
          ↔ b._clickTicks < d))
    ∧ (b._state = DETECT_CLICK →
        waitTime b ((b._stopTime + d) % 4294967296) ≤ b._clickTicks →
        ((tick b true ((b._stopTime + d) % 4294967296)).1._state = COUNT_CLICKS
          ↔ b._debounceTicks < d)) := by
  have hw : waitTime b ((b._startTime + d) % 4294967296) = d := by
    simp only [waitTime, elapsed16, subU32, U32, U16]
    omega
  have hq : sinceStop b ((b._stopTime + d) % 4294967296) = d := by
    simp only [sinceStop, elapsed16, subU32, U32, U16]
    omega
  refine ⟨hw, hq, ?_, ?_, ?_⟩
  · intro hst
    unfold waitTime at hw
    simp only [tick, hst, hw]
    split_ifs <;> simp_all
  · intro hst
    unfold waitTime at hw
    simp only [tick, hst, hw]
    split_ifs <;> simp_all
  · intro hst hle
    unfold waitTime at hle
    unfold sinceStop at hq
    simp only [tick, hst, hq]
    split_ifs <;> first | omega | simp_all

/-- Witness of C17: press recorded 296 ms before the 32-bit clock wraps, poll
1000 ms after the press, at clock value 704. -/
theorem elapsed16_exact_across_wrap_witness :
    waitTime (setFsm (fresh 0 0) DEBOUNCE_OR_LONG_PRESS 4294967000 4294967290 0)
      ((4294967000 + 1000) % 4294967296) = 1000 :=
  (elapsed16_exact_across_wrap (setFsm (fresh 0 0) DEBOUNCE_OR_LONG_PRESS 4294967000 4294967290 0)
    1000 (by decide) (by decide) (by decide)).1

/-- C12 (thresholds: defaults and independent setters).  A constructed
recognizer has debounce 50, click gap 400 and long-press threshold 800; and
for every recognizer and every 16-bit value v, each of `setDebounceTicks`,
`setClickTicks` and `setPressTicks` fires no callback, sets its own threshold
to v and leaves the other two thresholds, the FSM state, `_startTime`,
`_stopTime` and `_nClicks` unchanged. -/
theorem thresholds_defaults_and_setters (startTime0 stopTime0 : Nat) (b : OneButton) (v : Nat)
    (hv : v < 65536) :
    ((mk0 startTime0 stopTime0)._debounceTicks = 50
      ∧ (mk0 startTime0 stopTime0)._clickTicks = 400
      ∧ (mk0 startTime0 stopTime0)._pressTicks = 800)
    ∧ ((setDebounceTicks b v).2 = []
      ∧ (setDebounceTicks b v).1._debounceTicks = v
      ∧ (setDebounceTicks b v).1._clickTicks = b._clickTicks
      ∧ (setDebounceTicks b v).1._pressTicks = b._pressTicks
      ∧ SameFsm (setDebounceTicks b v).1 b)
    ∧ ((setClickTicks b v).2 = []
      ∧ (setClickTicks b v).1._clickTicks = v
      ∧ (setClickTicks b v).1._debounceTicks = b._debounceTicks
      ∧ (setClickTicks b v).1._pressTicks = b._pressTicks
      ∧ SameFsm (setClickTicks b v).1 b)
    ∧ ((setPressTicks b v).2 = []
      ∧ (setPressTicks b v).1._pressTicks = v
      ∧ (setPressTicks b v).1._debounceTicks = b._debounceTicks
      ∧ (setPressTicks b v).1._clickTicks = b._clickTicks
      ∧ SameFsm (setPressTicks b v).1 b) := by
  have hmod : v % U16 = v := Nat.mod_eq_of_lt hv
  refine ⟨⟨rfl, rfl, rfl⟩, ⟨rfl, ?_, rfl, rfl, rfl, rfl, rfl, rfl⟩,
    ⟨rfl, ?_, rfl, rfl, rfl, rfl, rfl, rfl⟩, ⟨rfl, ?_, rfl, rfl, rfl, rfl, rfl, rfl⟩⟩
  · exact hmod
  · exact hmod
  · exact hmod

/-- Witness of C12: the click gap of a fresh recognizer set to 250. -/
theorem thresholds_defaults_and_setters_witness :
    (setClickTicks (fresh 0 0) 250).1._clickTicks = 250
    ∧ (setClickTicks (fresh 0 0) 250).1._debounceTicks = 50 :=
  ⟨(thresholds_defaults_and_setters 0 0 (fresh 0 0) 250 (by decide)).2.2.1.2.1,
    (thresholds_defaults_and_setters 0 0 (fresh 0 0) 250 (by decide)).2.2.1.2.2.1⟩

/-- While the first press is debounced the click count is zero: it is cleared
when the press is registered and not written before the press is classified. -/
theorem debounce_count_tick (b : OneButton) (lvl : Bool) (t : Nat)
    (h : b._state = DEBOUNCE_OR_LONG_PRESS → b._nClicks = 0) :
    (tick b lvl t).1._state = DEBOUNCE_OR_LONG_PRESS → (tick b lvl t).1._nClicks = 0 := by
  revert h
  cases hst : b._state <;> simp only [tick, hst] <;> split_ifs <;> simp [hst]

theorem debounce_count_run (l : List Poll) : ∀ b : OneButton,
    (b._state = DEBOUNCE_OR_LONG_PRESS → b._nClicks = 0) →
    (run b l).1._state = DEBOUNCE_OR_LONG_PRESS → (run b l).1._nClicks = 0 := by
  induction l with
  | nil => intro b h; simpa [run_nil] using h
  | cons p ps ih =>
    intro b h
    rw [run_cons]
    exact ih _ (debounce_count_tick b p.1 p.2 h)

/-- C13 (DEBOUNCE_OR_LONG_PRESS follows the transition table, boundaries
included).  For every recognizer in DEBOUNCE_OR_LONG_PRESS with the two
callbacks attached and every poll whose elapsed time e = `(now - _startTime)
mod 2^32` is below 65536: pressed with e above `_pressTicks` sets the click
count to 1, fires long-press-start once and enters LONG_PRESS; pressed with e
at most `_pressTicks` fires nothing and changes nothing; released with e below
`_debounceTicks` fires nothing and returns to the idle state; released with e
at least `_debounceTicks` records the release time, fires press-start once and
enters DETECT_CLICK with the click count unchanged, which is 0 in every state
a run of polls reaches from a constructed recognizer. -/
theorem debounce_or_long_press_table (b : OneButton) (now : Nat)
    (hst : b._state = DEBOUNCE_OR_LONG_PRESS)
    (he : subU32 now b._startTime < 65536)
    (hls : b._longPressStartFunc = true) (hps : b._pressStartFunc = true) :
    (b._pressTicks < subU32 now b._startTime →
      tick b true now
        = ({ b with _nClicks := 1, _state := LONG_PRESS, _stopTime := now % U32 },
            [Event.longPressStart]))
    ∧ (subU32 now b._startTime ≤ b._pressTicks → tick b true now = (b, []))
    ∧ (subU32 now b._startTime < b._debounceTicks →
        tick b false now = ({ b with _state := WAIT_FOR_INITIAL_PRESS }, []))
    ∧ (b._debounceTicks ≤ subU32 now b._startTime →
        tick b false now
          = ({ b with _state := DETECT_CLICK, _stopTime := now % U32 }, [Event.pressStart]))
    ∧ (∀ startTime0 stopTime0 debounce click press l,
        (run (configured startTime0 stopTime0 debounce click press) l).1._state
          = DEBOUNCE_OR_LONG_PRESS →
        (run (configured startTime0 stopTime0 debounce click press) l).1._nClicks = 0) := by
  have hw := elapsed16_of_small now b._startTime he
  refine ⟨?_, ?_, ?_, ?_, ?_⟩
  · intro h
    simp [tick, hst, hw, h, call, hls]
  · intro h
    simp [tick, hst, hw, Nat.not_lt.mpr h]
  · intro h
    simp [tick, hst, hw, h]
  · intro h
    simp [tick, hst, hw, Nat.not_lt.mpr h, call, hps]
  · intro startTime0 stopTime0 debounce click press l
    exact debounce_count_run l _ (fun _ => rfl)

/-- Witness of C13: press recorded at 100, released poll at 150, exactly the
debounce time later. -/
theorem debounce_or_long_press_table_witness :
    tick (setFsm (fresh 0 0) DEBOUNCE_OR_LONG_PRESS 100 0 0) false 150
      = ({ setFsm (fresh 0 0) DEBOUNCE_OR_LONG_PRESS 100 0 0 with
            _state := DETECT_CLICK, _stopTime := 150 % U32 }, [Event.pressStart]) :=
  (debounce_or_long_press_table (setFsm (fresh 0 0) DEBOUNCE_OR_LONG_PRESS 100 0 0) 150 rfl
    (by decide) rfl rfl).2.2.2.1 (by decide)

/-- C14, counterexample.  With the default thresholds, after press at 0, release
at 60 and press at 150 the recognizer is in COUNT_CLICKS with `_startTime`
150; a released poll at 200, exactly the debounce time 50 later, changes
nothing and fires nothing; the release is accepted at 201.  And from
COUNT_CLICKS with a click count of 255 an accepted release leaves the count at
0, not 256. -/
theorem count_clicks_boundary_refuted :
    (run (fresh 0 0) [(true, 0), (false, 60), (true, 150)]).1._state = COUNT_CLICKS
    ∧ (run (fresh 0 0) [(true, 0), (false, 60), (true, 150)]).1._startTime = 150
    ∧ (run (fresh 0 0) [(true, 0), (false, 60), (true, 150)]).1._debounceTicks = 50
    ∧ subU32 200 150 = 50
    ∧ tick (run (fresh 0 0) [(true, 0), (false, 60), (true, 150)]).1 false 200
        = ((run (fresh 0 0) [(true, 0), (false, 60), (true, 150)]).1, [])
    ∧ (tick (run (fresh 0 0) [(true, 0), (false, 60), (true, 150)]).1 false 201).1._state
        = DETECT_CLICK
    ∧ (tick (setFsm (fresh 0 0) COUNT_CLICKS 150 60 255) false 210).1._state = DETECT_CLICK
    ∧ (tick (setFsm (fresh 0 0) COUNT_CLICKS 150 60 255) false 210).1._nClicks = 0 := by
  decide

/-- C14, amended.  COUNT_CLICKS accepts a release strictly after the debounce
window.  For every recognizer in COUNT_CLICKS and every poll whose elapsed
time e = `(now - _startTime) mod 2^32` is below 65536: a released sample with
e above `_debounceTicks` increments the click count by one modulo 256, records
the release time, enters DETECT_CLICK and fires nothing; every other poll
(pressed, or released with e at most `_debounceTicks`, in particular e equal
to it) fires nothing and changes nothing. -/
theorem count_clicks_release (b : OneButton) (lvl : Bool) (now : Nat)
    (hst : b._state = COUNT_CLICKS) (he : subU32 now b._startTime < 65536) :
    (lvl = false → b._debounceTicks < subU32 now b._startTime →
      tick b lvl now
        = ({ b with _nClicks := (b._nClicks + 1) % 256, _state := DETECT_CLICK,
                    _stopTime := now % U32 }, []))
    ∧ (lvl = true ∨ subU32 now b._startTime ≤ b._debounceTicks → tick b lvl now = (b, [])) := by
  have hw := elapsed16_of_small now b._startTime he
  constructor
  · intro hl h
    subst hl
    simp [tick, hst, hw, h, U8]
  · intro h
    rcases h with h | h
    · subst h
      simp [tick, hst]
    · simp [tick, hst, hw, Nat.not_lt.mpr h]

/-- Witness of C14, amended: released poll exactly the debounce time after the
press recorded at 150. -/
theorem count_clicks_release_witness :
    tick (setFsm (fresh 0 0) COUNT_CLICKS 150 60 0) false 200
      = (setFsm (fresh 0 0) COUNT_CLICKS 150 60 0, []) :=
  (count_clicks_release (setFsm (fresh 0 0) COUNT_CLICKS 150 60 0) false 200 rfl (by decide)).2
    (Or.inr (by decide))

/-- C15, counterexample.  With the default thresholds: after a press at 0, a
released poll at 500 accepts the release and leaves the recognizer in
DETECT_CLICK with a click count of 0; the same poll repeated closes the
sequence, so the FSM state becomes idle, the click count becomes 1 and
single-click fires.  And after press at 0 and release at 60, a pressed poll at
500 closes the sequence (idle, click count 1); the same poll repeated
registers a new press: DEBOUNCE_OR_LONG_PRESS, click count 0. -/
theorem repeated_poll_refuted :
    (run (fresh 0 0) [(true, 0), (false, 500)]).1._state = DETECT_CLICK
    ∧ (run (fresh 0 0) [(true, 0), (false, 500)]).1._nClicks = 0
    ∧ (tick (run (fresh 0 0) [(true, 0), (false, 500)]).1 false 500).1._state
        = WAIT_FOR_INITIAL_PRESS
    ∧ (tick (run (fresh 0 0) [(true, 0), (false, 500)]).1 false 500).1._nClicks = 1
    ∧ (tick (run (fresh 0 0) [(true, 0), (false, 500)]).1 false 500).2 = [Event.click]
    ∧ (run (fresh 0 0) [(true, 0), (false, 60), (true, 500)]).1._state = WAIT_FOR_INITIAL_PRESS
    ∧ (run (fresh 0 0) [(true, 0), (false, 60), (true, 500)]).1._nClicks = 1
    ∧ (tick (run (fresh 0 0) [(true, 0), (false, 60), (true, 500)]).1 true 500).1._state
        = DEBOUNCE_OR_LONG_PRESS
    ∧ (tick (run (fresh 0 0) [(true, 0), (false, 60), (true, 500)]).1 true 500).1._nClicks
        = 0 := by
  decide

theorem elapsed16_self (t : Nat) : elapsed16 (t % U32) (t % U32) = 0 := by
  simp only [elapsed16, subU32, U32, U16]
  omega

theorem tick_detect_pressed_wait (b : OneButton) (s p n t : Nat)
    (h : elapsed16 (t % U32) s ≤ b._clickTicks)
    (h2 : elapsed16 (t % U32) p ≤ b._debounceTicks) :
    tick (setFsm b DETECT_CLICK s p n) true t = (setFsm b DETECT_CLICK s p n, []) := by
  simp [tick, setFsm, Nat.not_lt.mpr h, Nat.not_lt.mpr h2]

theorem tick_count_wait (b : OneButton) (s p n t : Nat)
    (h : elapsed16 (t % U32) s ≤ b._debounceTicks) :
    tick (setFsm b COUNT_CLICKS s p n) false t = (setFsm b COUNT_CLICKS s p n, []) := by
  simp [tick, setFsm, h]

theorem mem_call (f : Bool) (e x : Event) (h : x ∈ call f e) : x = e := by
  unfold call at h
  split_ifs at h <;> simp at h
  exact h

/-- The repeated poll, for a recognizer given by its configuration `c` and the
four fields of the gesture in progress. -/
theorem repeated_poll_setFsm (c : OneButton) (st : stateMachine_t) (s p n : Nat) (lvl : Bool)
    (t : Nat)
    (hrel : ¬ (st ≠ DETECT_CLICK ∧ (tick (setFsm c st s p n) lvl t).1._state = DETECT_CLICK
                ∧ c._clickTicks < elapsed16 (t % U32) s))
    (hclose : ¬ (lvl = true ∧ st = DETECT_CLICK
                ∧ (tick (setFsm c st s p n) lvl t).1._state = WAIT_FOR_INITIAL_PRESS)) :
    (tick (tick (setFsm c st s p n) lvl t).1 lvl t).1._state
        = (tick (setFsm c st s p n) lvl t).1._state
    ∧ (tick (tick (setFsm c st s p n) lvl t).1 lvl t).1._nClicks
        = (tick (setFsm c st s p n) lvl t).1._nClicks
    ∧ ∀ e ∈ (tick (tick (setFsm c st s p n) lvl t).1 lvl t).2, e = Event.duringLongPress := by
  have h0 := elapsed16_self t
  cases st <;> cases lvl
  · -- idle, released
    simp [tick_idle_released]
  · -- idle, pressed: the press is registered, the repeated poll sees 0 ms
    have h1 : elapsed16 (t % U32) (t % U32) ≤ c._pressTicks := by omega
    simp [tick_idle_pressed, tick_debounce_hold, h1]
  · -- first press, released
    by_cases h : elapsed16 (t % U32) s < c._debounceTicks
    · simp [tick_debounce_bounce, h, tick_idle_released]
    · have h1 : c._debounceTicks ≤ elapsed16 (t % U32) s := Nat.le_of_not_lt h
      have h2 : elapsed16 (t % U32) s ≤ c._clickTicks := by
        by_contra hc
        exact hrel ⟨by decide, by rw [tick_debounce_release _ _ _ _ _ h1]; rfl, by omega⟩
      simp [tick_debounce_release, h1, tick_detect_wait, h2]
  · -- first press, pressed
    by_cases h : c._pressTicks < elapsed16 (t % U32) s
    · rw [tick_debounce_long _ _ _ _ _ h]
      simp only [tick_long_hold]
      exact ⟨trivial, trivial, fun e he => mem_call _ _ _ he⟩
    · have h1 : elapsed16 (t % U32) s ≤ c._pressTicks := Nat.le_of_not_lt h
      simp [tick_debounce_hold, h1]
  · -- waiting for the next click, released
    by_cases h : c._clickTicks < elapsed16 (t % U32) s
    · simp [tick_detect_close, h, tick_idle_released]
    · have h1 : elapsed16 (t % U32) s ≤ c._clickTicks := Nat.le_of_not_lt h
      simp [tick_detect_wait, h1]
  · -- waiting for the next click, pressed
    by_cases h : c._clickTicks < elapsed16 (t % U32) s
    · exact absurd ⟨rfl, rfl, by rw [tick_detect_close _ _ _ _ _ _ h]; rfl⟩ hclose
    · have h1 : elapsed16 (t % U32) s ≤ c._clickTicks := Nat.le_of_not_lt h
      by_cases h2 : c._debounceTicks < elapsed16 (t % U32) p
      · simp [tick_detect_repress, h1, h2, tick_count_hold]
      · have h3 : elapsed16 (t % U32) p ≤ c._debounceTicks := Nat.le_of_not_lt h2
        simp [tick_detect_pressed_wait, h1, h3]
  · -- repeated press, released
    by_cases h : c._debounceTicks < elapsed16 (t % U32) s
    · have h2 : elapsed16 (t % U32) s ≤ c._clickTicks := by
        by_contra hc
        exact hrel ⟨by decide, by rw [tick_count_release _ _ _ _ _ h]; rfl, by omega⟩
      simp [tick_count_release, h, tick_detect_wait, h2]
    · have h1 : elapsed16 (t % U32) s ≤ c._debounceTicks := Nat.le_of_not_lt h
      simp [tick_count_wait, h1]
  · -- repeated press, pressed
    simp [tick_count_hold]
  · -- long press, released
    simp [tick_long_release, tick_idle_released]
  · -- long press, pressed
    simp only [tick_long_hold]
    exact ⟨trivial, trivial, fun e he => mem_call _ _ _ he⟩

/-- C15, amended.  For every recognizer state, every level and every timestamp
t: when poll(level, t) is immediately followed by a second poll(level, t), the
second poll leaves the FSM state and the click count unchanged and fires no
callback other than during-long-press, unless the first poll moved into
DETECT_CLICK (accepted a release) while the 16-bit time since the press
already exceeded the click gap, or the first poll was a pressed poll that
closed a click sequence (DETECT_CLICK to idle). -/
theorem repeated_poll_no_transition (b : OneButton) (lvl : Bool) (t : Nat)
    (hrel : ¬ (b._state ≠ DETECT_CLICK ∧ (tick b lvl t).1._state = DETECT_CLICK
                ∧ b._clickTicks < waitTime b t))
    (hclose : ¬ (lvl = true ∧ b._state = DETECT_CLICK
                ∧ (tick b lvl t).1._state = WAIT_FOR_INITIAL_PRESS)) :
    (tick (tick b lvl t).1 lvl t).1._state = (tick b lvl t).1._state
    ∧ (tick (tick b lvl t).1 lvl t).1._nClicks = (tick b lvl t).1._nClicks
    ∧ ∀ e ∈ (tick (tick b lvl t).1 lvl t).2, e = Event.duringLongPress :=
  repeated_poll_setFsm b b._state b._startTime b._stopTime b._nClicks lvl t hrel hclose

/-- Witness of C15, amended: a pressed poll at 100 on a fresh recognizer,
repeated. -/
theorem repeated_poll_no_transition_witness :
    (tick (tick (fresh 0 0) true 100).1 true 100).1._state = (tick (fresh 0 0) true 100).1._state :=
  (repeated_poll_no_transition (fresh 0 0) true 100 (by decide) (by decide)).1

theorem dispatchClicks_length (b : OneButton) (n : Nat) : (dispatchClicks b n).length ≤ 1 := by
  unfold dispatchClicks
  split <;> simp only [call] <;> split_ifs <;> simp

/-- C18 (a poll fires at most one callback).  For every recognizer state,
every level and every timestamp, a single call of `tick` invokes at most one
of the seven callbacks, and it invokes none when the FSM state after the poll
equals the state before it, except for during-long-press in LONG_PRESS. -/
theorem at_most_one_callback_per_poll (b : OneButton) (lvl : Bool) (t : Nat) :
    (tick b lvl t).2.length ≤ 1
    ∧ ((tick b lvl t).1._state = b._state →
        (tick b lvl t).2 = []
        ∨ (b._state = LONG_PRESS ∧ (tick b lvl t).2 = [Event.duringLongPress])) := by
  have hd := dispatchClicks_length b ((b._nClicks + 1) % U8)
  constructor
  · cases hst : b._state <;> simp only [tick, hst] <;> split_ifs <;>
      simp [call, hd] <;> split_ifs <;> simp
  · cases hst : b._state <;> simp only [tick, hst] <;> split_ifs <;> simp [call, hst]

/-- C19 (two late released polls bring the recognizer back to idle).  For every
recognizer state and every two consecutive released polls at t1 and t2 whose
16-bit elapsed times `(t - _startTime) mod 2^16` both exceed `_debounceTicks`
and `_clickTicks`, `isIdle()` holds after the second poll. -/
theorem two_late_released_polls_idle (b : OneButton) (t₁ t₂ : Nat)
    (hd₁ : (b._debounceTicks : Int) < ((t₁ : Int) - (b._startTime : Int)) % 65536)
    (hc₁ : (b._clickTicks : Int) < ((t₁ : Int) - (b._startTime : Int)) % 65536)
    (hd₂ : (b._debounceTicks : Int) < ((t₂ : Int) - (b._startTime : Int)) % 65536)
    (hc₂ : (b._clickTicks : Int) < ((t₂ : Int) - (b._startTime : Int)) % 65536) :
    isIdle (run b [(false, t₁), (false, t₂)]).1 = true := by
  have e₁ : ((elapsed16 (t₁ % U32) b._startTime : Nat) : Int)
      = ((t₁ : Int) - (b._startTime : Int)) % 65536 := by
    simp only [elapsed16, subU32, U32, U16]
    omega
  have e₂ : ((elapsed16 (t₂ % U32) b._startTime : Nat) : Int)
      = ((t₂ : Int) - (b._startTime : Int)) % 65536 := by
    simp only [elapsed16, subU32, U32, U16]
    omega
  have w1 : b._debounceTicks < elapsed16 (t₁ % U32) b._startTime := by omega
  have w2 : b._clickTicks < elapsed16 (t₁ % U32) b._startTime := by omega
  have w3 : b._debounceTicks < elapsed16 (t₂ % U32) b._startTime := by omega
  have w4 : b._clickTicks < elapsed16 (t₂ % U32) b._startTime := by omega
  have n1 : ¬ elapsed16 (t₁ % U32) b._startTime < b._debounceTicks := by omega
  simp only [run_cons, run_nil, isIdle]
  cases hst : b._state <;> simp [tick, hst, w1, w2, w3, w4, n1]

/-- Witness of C19: a repeated press recorded at 150, released polls at 600 and
601. -/
theorem two_late_released_polls_idle_witness :
    isIdle (run (setFsm (fresh 0 0) COUNT_CLICKS 150 60 0) [(false, 600), (false, 601)]).1
      = true :=
  two_late_released_polls_idle (setFsm (fresh 0 0) COUNT_CLICKS 150 60 0) 600 601
    (by decide) (by decide) (by decide) (by decide)

/-- One poll on two recognizers with the same configuration, FSM state and
click count, whose `_startTime` agree unless idle and whose `_stopTime` agree
in DETECT_CLICK: the same callbacks fire and the two results are related in
the same way. -/
theorem tick_timestamps_irrelevant (c : OneButton) (st : stateMachine_t)
    (s₁ p₁ s₂ p₂ n : Nat) (lvl : Bool) (t : Nat)
    (hs : st ≠ WAIT_FOR_INITIAL_PRESS → s₁ = s₂) (hp : st = DETECT_CLICK → p₁ = p₂) :
    ∃ st' s₁' p₁' s₂' p₂' n' ev,
      tick (setFsm c st s₁ p₁ n) lvl t = (setFsm c st' s₁' p₁' n', ev)
      ∧ tick (setFsm c st s₂ p₂ n) lvl t = (setFsm c st' s₂' p₂' n', ev)
      ∧ (st' ≠ WAIT_FOR_INITIAL_PRESS → s₁' = s₂') ∧ (st' = DETECT_CLICK → p₁' = p₂') := by
  cases st
  · -- idle: neither timestamp is read
    cases lvl
    · exact ⟨_, _, _, _, _, _, _, tick_idle_released c s₁ p₁ n t, tick_idle_released c s₂ p₂ n t,
        fun h => absurd rfl h, fun h => by cases h⟩
    · exact ⟨_, _, _, _, _, _, _, tick_idle_pressed c s₁ p₁ n t, tick_idle_pressed c s₂ p₂ n t,
        fun _ => rfl, fun h => by cases h⟩
  · -- first press: `_startTime` agrees, `_stopTime` is written before it is read
    have e := hs (by decide)
    subst e
    cases lvl
    · by_cases h : elapsed16 (t % U32) s₁ < c._debounceTicks
      · exact ⟨_, _, _, _, _, _, _, tick_debounce_bounce c s₁ p₁ n t h,
          tick_debounce_bounce c s₁ p₂ n t h, fun _ => rfl, fun h => by cases h⟩
      · exact ⟨_, _, _, _, _, _, _, tick_debounce_release c s₁ p₁ n t (Nat.le_of_not_lt h),
          tick_debounce_release c s₁ p₂ n t (Nat.le_of_not_lt h), fun _ => rfl, fun _ => rfl⟩
    · by_cases h : c._pressTicks < elapsed16 (t % U32) s₁
      · exact ⟨_, _, _, _, _, _, _, tick_debounce_long c s₁ p₁ n t h,
          tick_debounce_long c s₁ p₂ n t h, fun _ => rfl, fun _ => rfl⟩
      · exact ⟨_, _, _, _, _, _, _, tick_debounce_hold c s₁ p₁ n t (Nat.le_of_not_lt h),
          tick_debounce_hold c s₁ p₂ n t (Nat.le_of_not_lt h), fun _ => rfl, fun h => by cases h⟩
  · -- waiting for the next click: both timestamps agree
    have e := hs (by decide)
    have e2 := hp rfl
    subst e e2
    exact ⟨(tick (setFsm c DETECT_CLICK s₁ p₁ n) lvl t).1._state,
      (tick (setFsm c DETECT_CLICK s₁ p₁ n) lvl t).1._startTime,
      (tick (setFsm c DETECT_CLICK s₁ p₁ n) lvl t).1._stopTime,
      (tick (setFsm c DETECT_CLICK s₁ p₁ n) lvl t).1._startTime,
      (tick (setFsm c DETECT_CLICK s₁ p₁ n) lvl t).1._stopTime,
      (tick (setFsm c DETECT_CLICK s₁ p₁ n) lvl t).1._nClicks,
      (tick (setFsm c DETECT_CLICK s₁ p₁ n) lvl t).2,
      by simp only [tick, setFsm]; split_ifs <;> rfl,
      by simp only [tick, setFsm]; split_ifs <;> rfl, fun _ => rfl, fun _ => rfl⟩
  · -- repeated press
    have e := hs (by decide)
    subst e
    cases lvl
    · by_cases h : c._debounceTicks < elapsed16 (t % U32) s₁
      · exact ⟨_, _, _, _, _, _, _, tick_count_release c s₁ p₁ n t h,
          tick_count_release c s₁ p₂ n t h, fun _ => rfl, fun _ => rfl⟩
      · exact ⟨_, _, _, _, _, _, _, tick_count_wait c s₁ p₁ n t (Nat.le_of_not_lt h),
          tick_count_wait c s₁ p₂ n t (Nat.le_of_not_lt h), fun _ => rfl, fun h => by cases h⟩
    · exact ⟨_, _, _, _, _, _, _, tick_count_hold c s₁ p₁ n t, tick_count_hold c s₁ p₂ n t,
        fun _ => rfl, fun h => by cases h⟩
  · -- long press
    have e := hs (by decide)
    subst e
    cases lvl
    · exact ⟨_, _, _, _, _, _, _, tick_long_release c s₁ p₁ n t, tick_long_release c s₁ p₂ n t,
        fun _ => rfl, fun h => by cases h⟩
    · exact ⟨_, _, _, _, _, _, _, tick_long_hold c s₁ p₁ n t, tick_long_hold c s₁ p₂ n t,
        fun _ => rfl, fun h => by cases h⟩

theorem run_timestamps_irrelevant (c : OneButton) (l : List Poll) :
    ∀ (st : stateMachine_t) (s₁ p₁ s₂ p₂ n : Nat),
    (st ≠ WAIT_FOR_INITIAL_PRESS → s₁ = s₂) → (st = DETECT_CLICK → p₁ = p₂) →
    (run (setFsm c st s₁ p₁ n) l).2 = (run (setFsm c st s₂ p₂ n) l).2
    ∧ (states (setFsm c st s₁ p₁ n) l).map observed
        = (states (setFsm c st s₂ p₂ n) l).map observed := by
  induction l with
  | nil => intro st s₁ p₁ s₂ p₂ n _ _; exact ⟨rfl, rfl⟩
  | cons q qs ih =>
    intro st s₁ p₁ s₂ p₂ n hs hp
    obtain ⟨st', s₁', p₁', s₂', p₂', n', ev, h1, h2, hs', hp'⟩ :=
      tick_timestamps_irrelevant c st s₁ p₁ s₂ p₂ n q.1 q.2 hs hp
    obtain ⟨i1, i2⟩ := ih st' s₁' p₁' s₂' p₂' n' hs' hp'
    simp only [run_cons, states_cons, h1, h2, List.map_cons, i1, i2]
    exact ⟨trivial, rfl⟩

/-- C20 (gestures do not depend on the uninitialised timestamps).  For every
two idle recognizers that differ only in `_startTime` and `_stopTime`, in
particular two constructed recognizers whose uninitialised `_startTime` and
`_stopTime` differ, with or without callbacks and thresholds set, and every
sequence of polls applied to both: the two runs fire the same callbacks on
every poll and have the same FSM state and the same click count after every
poll. -/
theorem uninitialised_timestamps_irrelevant (b : OneButton) (s₁ p₁ s₂ p₂ n : Nat)
    (l : List Poll) :
    ((run (setFsm b WAIT_FOR_INITIAL_PRESS s₁ p₁ n) l).2
        = (run (setFsm b WAIT_FOR_INITIAL_PRESS s₂ p₂ n) l).2
      ∧ (states (setFsm b WAIT_FOR_INITIAL_PRESS s₁ p₁ n) l).map observed
        = (states (setFsm b WAIT_FOR_INITIAL_PRESS s₂ p₂ n) l).map observed)
    ∧ ((run (mk0 s₁ p₁) l).2 = (run (mk0 s₂ p₂) l).2
      ∧ (states (mk0 s₁ p₁) l).map observed = (states (mk0 s₂ p₂) l).map observed)
    ∧ (∀ debounce click press,
        (run (configured s₁ p₁ debounce click press) l).2
          = (run (configured s₂ p₂ debounce click press) l).2
        ∧ (states (configured s₁ p₁ debounce click press) l).map observed
          = (states (configured s₂ p₂ debounce click press) l).map observed) := by
  refine ⟨?_, ?_, ?_⟩
  · exact run_timestamps_irrelevant b l _ _ _ _ _ _ (fun h => absurd rfl h) (fun h => by cases h)
  · exact run_timestamps_irrelevant (mk0 0 0) l WAIT_FOR_INITIAL_PRESS (s₁ % U32) (p₁ % U32)
      (s₂ % U32) (p₂ % U32) 0 (fun h => absurd rfl h) (fun h => by cases h)
  · intro debounce click press
    exact run_timestamps_irrelevant (configured 0 0 debounce click press) l
      WAIT_FOR_INITIAL_PRESS (s₁ % U32) (p₁ % U32) (s₂ % U32) (p₂ % U32) 0
      (fun h => absurd rfl h) (fun h => by cases h)

theorem subU32_mod (a b : Nat) : subU32 (a % U32) (b % U32) = subU32 a b := by
  simp only [subU32, U32]
  omega

theorem registersPress_start (b : OneButton) (t : Nat) (h : registersPress b (true, t) = true) :
    (tick b true t).1._startTime = t % U32 ∧ holding (tick b true t).1 = true := by
  revert h
  unfold registersPress holding
  cases hst : b._state <;> simp only [tick, hst] <;> split_ifs <;> simp_all

theorem holding_tick (b : OneButton) (p : Poll) (h : holding b = true)
    (h2 : holding (tick b p.1 p.2).1 = true) :
    (tick b p.1 p.2).1._startTime = b._startTime := by
  revert h h2
  unfold holding
  cases hst : b._state <;> simp only [tick, hst] <;> split_ifs <;> simp [hst]

theorem holding_run (l : List Poll) : ∀ b : OneButton, holding b = true →
    (∀ s ∈ states b l, holding s = true) →
    (run b l).1._startTime = b._startTime ∧ holding (run b l).1 = true := by
  induction l with
  | nil => intro b h _; exact ⟨rfl, h⟩
  | cons p ps ih =>
    intro b h hall
    rw [states_cons] at hall
    have h1 := hall _ (List.mem_cons_self _ _)
    obtain ⟨i1, i2⟩ := ih _ h1 (fun s hs => hall s (List.mem_cons_of_mem _ hs))
    rw [run_cons]
    exact ⟨i1.trans (holding_tick b p h h1), i2⟩

theorem acceptsRelease_times (b : OneButton) (t : Nat) (h : acceptsRelease b (false, t) = true) :
    (tick b false t).1._stopTime = t % U32 ∧ (tick b false t).1._startTime = b._startTime := by
  revert h
  unfold acceptsRelease
  cases hst : b._state <;> simp only [tick, hst] <;> split_ifs <;> simp_all

/-- C16, counterexample.  With the default thresholds, a press registered at 0
and held into LONG_PRESS is released by the poll at 2147483648: the release is
accepted, `(now - _startTime) mod 2^32` is 2147483648, and `getPressedTicks()`
returns -2147483648, because the difference is returned as a 32-bit `int`. -/
theorem held_duration_refuted :
    (run (fresh 0 0) [(true, 0), (true, 801)]).1._state = LONG_PRESS
    ∧ (run (fresh 0 0) [(true, 0), (true, 801)]).1._startTime = 0
    ∧ acceptsRelease (run (fresh 0 0) [(true, 0), (true, 801)]).1 (false, 2147483648) = true
    ∧ subU32 2147483648 0 = 2147483648
    ∧ getPressedTicks (tick (run (fresh 0 0) [(true, 0), (true, 801)]).1 false 2147483648).1
        = -2147483648 := by
  decide

/-- C16, amended.  `getPressedTicks()` after a release is the length of the
press just released, as a 32-bit `int`.  For every press registered by a poll
at `t₀` (idle to DEBOUNCE_OR_LONG_PRESS, or DETECT_CLICK to COUNT_CLICKS), held
through any polls that keep the FSM in DEBOUNCE_OR_LONG_PRESS, COUNT_CLICKS or
LONG_PRESS, and released by a poll at `now` that accepts the release
(DEBOUNCE_OR_LONG_PRESS or COUNT_CLICKS to DETECT_CLICK, or LONG_PRESS to
idle): immediately after that poll `getPressedTicks()` is the two's complement
reading of `(now - t₀) mod 2^32`, hence equal to `(now - t₀) mod 2^32` whenever
that is below 2^31. -/
theorem held_duration_after_release (b : OneButton) (t₀ : Nat) (hold : List Poll) (now : Nat)
    (hreg : registersPress b (true, t₀) = true)
    (hhold : ∀ s ∈ states (tick b true t₀).1 hold, holding s = true)
    (hrel : acceptsRelease (run (tick b true t₀).1 hold).1 (false, now) = true) :
    getPressedTicks (tick (run (tick b true t₀).1 hold).1 false now).1
        = toInt32 (subU32 now t₀)
    ∧ (subU32 now t₀ < 2147483648 →
        getPressedTicks (tick (run (tick b true t₀).1 hold).1 false now).1
          = ((subU32 now t₀ : Nat) : Int)) := by
  obtain ⟨r1, r2⟩ := registersPress_start b t₀ hreg
  obtain ⟨k1, _⟩ := holding_run hold _ r2 hhold
  obtain ⟨a1, a2⟩ := acceptsRelease_times _ now hrel
  have hval : getPressedTicks (tick (run (tick b true t₀).1 hold).1 false now).1
      = toInt32 (subU32 now t₀) := by
    unfold getPressedTicks
    rw [a1, a2, k1, r1, subU32_mod]
  refine ⟨hval, ?_⟩
  intro hlt
  rw [hval]
  have hb : subU32 now t₀ < U32 := by
    simp only [subU32, U32]; omega
  unfold toInt32
  rw [Nat.mod_eq_of_lt hb, if_pos hlt]

/-- Witness of C16, amended: press registered at 1000, held into a long press,
released at 2300. -/
theorem held_duration_after_release_witness :
    getPressedTicks
        (tick (run (tick (fresh 0 0) true 1000).1 [(true, 1500), (true, 1900)]).1 false 2300).1
      = toInt32 (subU32 2300 1000) :=
  (held_duration_after_release (fresh 0 0) 1000 [(true, 1500), (true, 1900)] 2300
    (by decide) (by decide) (by decide)).1

end OneButton
